import Mathlib

/-!
Verification of the AMD lead-enrichment and content-personalization pipeline.

Shallow embedding of the core services:
* `rad_orchestrator.py` (source resolver: field merge, industry
  canonicalization, employee-count estimation),
* `context_inference_service.py` (rule cascades and confidence score),
* `news_analysis_service.py` (AI-readiness signal detection),
* `executive_review_service.py` (content validator, retry loop, fallback).

Python `str` values are embedded as Lean `String`; the handful of string
operations the source uses (`lower`, `strip`, `split`, `replace`, `in`,
`endswith`) are defined here over the character list so that every
definition is executable and kernel-reducible.
-/

namespace Spec2Proof

/-! ## Python string primitives -/

/-- Whitespace characters recognised by Python `str.strip` / `str.split()`. -/
def isPySpace (c : Char) : Bool :=
  c = ' ' || c = '\t' || c = '\n' || c = '\r' || c = '\x0b' || c = '\x0c'

/-- Does the character list `l` start with the list `pat`? -/
def startsWithL : List Char → List Char → Bool
  | _, [] => true
  | [], _ :: _ => false
  | c :: t, p :: ps => c = p && startsWithL t ps

/-- Python `pat in s` (contiguous substring test) on character lists. -/
def containsL : List Char → List Char → Bool
  | [], pat => pat.isEmpty
  | c :: t, pat => startsWithL (c :: t) pat || containsL t pat

/-- Python `pat in s` (substring containment, `True` for the empty pattern). -/
def pyContains (s pat : String) : Bool :=
  containsL s.data pat.data

/-- Python `s.lower()` (ASCII case folding; all source data is ASCII). -/
def pyLower (s : String) : String :=
  ⟨s.data.map Char.toLower⟩

/-- Python `s.strip()`: drop leading and trailing whitespace. -/
def pyStrip (s : String) : String :=
  ⟨((s.data.dropWhile isPySpace).reverse.dropWhile isPySpace).reverse⟩

/-- Helper for `pySplitWs`: accumulate the current word (reversed). -/
def splitWsAux : List Char → List Char → List String
  | [], [] => []
  | [], w => [⟨w.reverse⟩]
  | c :: t, w =>
    if isPySpace c then
      if w.isEmpty then splitWsAux t [] else (⟨w.reverse⟩ : String) :: splitWsAux t []
    else splitWsAux t (c :: w)

/-- Python `s.split()` with no separator: split on whitespace runs,
ignoring leading/trailing whitespace. -/
def pySplitWs (s : String) : List String :=
  splitWsAux s.data []

/-- Helper for `pySplitOnChar`: accumulate the current piece (reversed). -/
def splitOnCharAux (sep : Char) : List Char → List Char → List String
  | [], piece => [⟨piece.reverse⟩]
  | c :: t, piece =>
    if c = sep then (⟨piece.reverse⟩ : String) :: splitOnCharAux sep t []
    else splitOnCharAux sep t (c :: piece)

/-- Python `s.split(sep)` for a one-character separator (empty pieces kept). -/
def pySplitOnChar (sep : Char) (s : String) : List String :=
  splitOnCharAux sep s.data []

/-- Replace every (non-overlapping, leftmost-first) occurrence of `old` by
`new`, as Python `str.replace`.  Structural recursion on a fuel bound: the
fuel is the input length, and every step consumes at least one character,
so the `0, l => l` arm is unreachable on the fuel the wrapper passes. -/
def replaceL (old new : List Char) : Nat → List Char → List Char
  | _, [] => []
  | 0, l => l
  | fuel + 1, c :: t =>
    if startsWithL (c :: t) old ∧ old ≠ [] then
      new ++ replaceL old new fuel (t.drop (old.length - 1))
    else
      c :: replaceL old new fuel t

/-- Python `s.replace(old, new)`.  Every caller in the embedded source passes
a non-empty `old`; for the (unused) empty pattern we return `s` unchanged. -/
def pyReplace (s old new : String) : String :=
  if old = "" then s else ⟨replaceL old.data new.data s.data.length s.data⟩

/-- Python `s.endswith(suffix)` for a one-character suffix. -/
def pyEndsWithChar (c : Char) (s : String) : Bool :=
  match s.data.reverse with
  | [] => false
  | x :: _ => x = c

/-- Digits-only parse (`Option`); `none` on the empty list or a non-digit. -/
def digitsToNat? : List Char → Option Nat
  | [] => none
  | l =>
    if l.all (·.isDigit) then
      some (l.foldl (fun acc c => acc * 10 + (c.toNat - '0'.toNat)) 0)
    else none

/-- Python `int(s)` on an already-stripped string: optional sign then
digits; `none` models `ValueError`. -/
def pyParseInt (s : String) : Option Int :=
  match s.data with
  | '-' :: rest => (digitsToNat? rest).map (fun n => -(n : Int))
  | '+' :: rest => (digitsToNat? rest).map (fun n => (n : Int))
  | l => (digitsToNat? l).map (fun n => (n : Int))

/-! ## Stable descending sort

Python `list.sort(key=…, reverse=True)` is documented to be stable: elements
with equal keys keep their original relative order.  We embed it as a stable
insertion sort by a `Nat`-valued key, descending. -/

/-- Insert `x` before the first element whose key is `≤ key x` (so a later
`x` lands after earlier elements with the same key once the whole list is
sorted: the recursion in `sortDescBy` inserts right-to-left). -/
def insertDescBy (key : α → Nat) (x : α) : List α → List α
  | [] => [x]
  | y :: ys => if key y ≤ key x then x :: y :: ys else y :: insertDescBy key x ys

/-- Stable sort by `key`, descending (embeds `sort(key=…, reverse=True)`). -/
def sortDescBy (key : α → Nat) : List α → List α
  | [] => []
  | x :: xs => insertDescBy key x (sortDescBy key xs)

/-- The first element of `l` attaining the maximal key (ties go to the
earlier element). -/
def firstMaxBy (key : α → Nat) : List α → Option α
  | [] => none
  | x :: xs =>
    match firstMaxBy key xs with
    | none => some x
    | some m => if key m ≤ key x then some x else some m

/-! ## Python values and dicts

Raw API payloads and the normalized profile are Python dicts with
heterogeneous values; we embed them as association lists of `Val`. -/

/-- A Python value as it appears in raw payloads / the normalized profile. -/
inductive Val where
  | none : Val
  | str : String → Val
  | int : Int → Val
  | bool : Bool → Val
  | list : List Val → Val
  | dict : List (String × Val) → Val

/-- Python truthiness (`bool(v)`), for the value kinds the source stores. -/
def Val.truthy : Val → Bool
  | .none => false
  | .str s => s ≠ ""
  | .int n => n ≠ 0
  | .bool b => b
  | .list l => ¬ l.isEmpty
  | .dict d => ¬ d.isEmpty

/-- `v is None` in Python. -/
def Val.isNone : Val → Bool
  | .none => true
  | _ => false

/-- `v == ""` in Python (only a string compares equal to `""`). -/
def Val.isEmptyString : Val → Bool
  | .str s => s = ""
  | _ => false

/-- A Python dict, embedded as an association list; `dictSet` conses, so
`List.lookup` (first match) realises overwriting assignment. -/
def PyDict := List (String × Val)

/-- `d.get(k)` (also `None` when the stored value is `None` is kept apart:
a stored `Val.none` is `some Val.none`, a missing key is `none`). -/
def dictGet (d : PyDict) (k : String) : Option Val :=
  List.lookup k d

/-- `d.get(k, default)`. -/
def dictGetD (d : PyDict) (k : String) (v : Val) : Val :=
  (dictGet d k).getD v

/-- `d[k] = v` (cons; `dictGet` sees the newest binding first). -/
def dictSet (d : PyDict) (k : String) (v : Val) : PyDict :=
  (k, v) :: d

/-- Truthiness of `d.get(k)` used for the `"_error"` / `"_mock"` flags. -/
def flagTruthy (d : PyDict) (k : String) : Bool :=
  (dictGetD d k .none).truthy

/-- `bool(d)` for a dict. -/
def dictTruthy (d : PyDict) : Bool :=
  ¬ (List.isEmpty d)

/-- The aggregated `raw_data`: one payload dict per source name. -/
def RawData := List (String × PyDict)

/-- `raw_data.get(source, {})`. -/
def rawGet (raw : RawData) (source : String) : PyDict :=
  (List.lookup source raw).getD []

/-! ## `rad_orchestrator.py`: tables -/

/-- Source trust priority (higher = more trusted). -/
def SOURCE_PRIORITY : List (String × Nat) :=
  [("apollo", 5), ("zoominfo", 4), ("pdl_company", 4), ("pdl", 3),
   ("hunter", 2), ("gnews", 1)]

/-- `SOURCE_PRIORITY.get(source_name, 0)`. -/
def sourcePriority (source : String) : Nat :=
  (SOURCE_PRIORITY.lookup source).getD 0

/-- Canonical industry normalization map (insertion order preserved). -/
def INDUSTRY_NORMALIZATION : List (String × String) := [
  ("information technology", "technology"),
  ("software", "technology"),
  ("internet", "technology"),
  ("computer", "technology"),
  ("saas", "technology"),
  ("it services", "technology"),
  ("financial", "financial_services"),
  ("banking", "financial_services"),
  ("insurance", "financial_services"),
  ("investment", "financial_services"),
  ("capital markets", "financial_services"),
  ("fintech", "financial_services"),
  ("healthcare", "healthcare"),
  ("health care", "healthcare"),
  ("hospital", "healthcare"),
  ("medical", "healthcare"),
  ("pharmaceutical", "healthcare"),
  ("pharma", "healthcare"),
  ("biotech", "healthcare"),
  ("life science", "healthcare"),
  ("manufacturing", "manufacturing"),
  ("automotive", "manufacturing"),
  ("industrial", "manufacturing"),
  ("aerospace", "manufacturing"),
  ("retail", "retail"),
  ("e-commerce", "retail"),
  ("ecommerce", "retail"),
  ("consumer goods", "retail"),
  ("energy", "energy"),
  ("oil", "energy"),
  ("utilities", "energy"),
  ("renewable", "energy"),
  ("telecom", "telecommunications"),
  ("wireless", "telecommunications"),
  ("communications", "telecommunications"),
  ("media", "media"),
  ("entertainment", "media"),
  ("publishing", "media"),
  ("broadcast", "media"),
  ("government", "government"),
  ("federal", "government"),
  ("public sector", "government"),
  ("defense", "government"),
  ("military", "government"),
  ("education", "education"),
  ("university", "education"),
  ("academic", "education"),
  ("higher education", "education"),
  ("consulting", "professional_services"),
  ("professional service", "professional_services"),
  ("legal", "professional_services"),
  ("accounting", "professional_services")]

/-- Field importance tiers for the completeness report. -/
def CRITICAL_FIELDS : List String :=
  ["company_name", "industry", "title", "employee_count"]

def IMPORTANT_FIELDS : List String :=
  ["company_summary", "founded_year", "seniority", "recent_news"]

def NICE_TO_HAVE_FIELDS : List String :=
  ["skills", "employee_growth_rate", "total_funding",
   "latest_funding_stage", "company_tags", "news_themes"]

/-- `_get_field_mappings`: normalized field → (source, source_field) list. -/
def field_mappings : List (String × List (String × String)) := [
  ("first_name", [("apollo", "first_name"), ("pdl", "first_name")]),
  ("last_name", [("apollo", "last_name"), ("pdl", "last_name")]),
  ("full_name", [("pdl", "full_name")]),
  ("title", [("apollo", "title"), ("pdl", "job_title")]),
  ("company_name", [("pdl_company", "display_name"), ("pdl_company", "name"),
    ("apollo", "company_name"), ("zoominfo", "company_name"),
    ("pdl", "job_company_name")]),
  ("company_display_name", [("pdl_company", "display_name")]),
  ("industry", [("pdl_company", "industry"), ("apollo", "industry"),
    ("zoominfo", "industry"), ("pdl", "job_company_industry")]),
  ("company_size", [("pdl_company", "size"), ("apollo", "company_size"),
    ("pdl", "job_company_size")]),
  ("employee_count", [("pdl_company", "employee_count"),
    ("zoominfo", "employee_count")]),
  ("employee_count_range", [("pdl_company", "employee_count_range")]),
  ("linkedin_url", [("apollo", "linkedin_url"), ("pdl", "linkedin_url")]),
  ("city", [("pdl_company", "locality"), ("apollo", "city"),
    ("zoominfo", "city"), ("pdl", "location_locality")]),
  ("state", [("pdl_company", "region"), ("apollo", "state"),
    ("zoominfo", "state"), ("pdl", "location_region")]),
  ("country", [("pdl_company", "country"), ("apollo", "country"),
    ("zoominfo", "country"), ("pdl", "location_country")]),
  ("seniority", [("apollo", "seniority")]),
  ("skills", [("pdl", "skills")]),
  ("interests", [("pdl", "interests")]),
  ("experience", [("pdl", "experience")]),
  ("company_description", [("pdl_company", "summary"), ("zoominfo", "description")]),
  ("founded_year", [("pdl_company", "founded"), ("zoominfo", "founded_year")]),
  ("company_type", [("pdl_company", "type")]),
  ("ticker", [("pdl_company", "ticker")]),
  ("naics_codes", [("pdl_company", "naics")]),
  ("sic_codes", [("pdl_company", "sic")]),
  ("departments", [("apollo", "departments")])]

/-! ## `rad_orchestrator.py`: field resolution -/

/-- The candidate `(priority, value)` list built by `_resolve_field`:
sources with an `_error` or `_mock` flag (or an empty payload) are skipped,
as are missing, `None` and empty-string values. -/
def resolve_candidates (sources : List (String × String)) (raw : RawData) :
    List (Nat × Val) :=
  sources.filterMap (fun sf =>
    if dictTruthy (rawGet raw sf.1) ∧ ¬ flagTruthy (rawGet raw sf.1) "_error"
        ∧ ¬ flagTruthy (rawGet raw sf.1) "_mock" then
      match dictGet (rawGet raw sf.1) sf.2 with
      | some v =>
        if ¬ v.isNone ∧ ¬ v.isEmptyString then some (sourcePriority sf.1, v)
        else Option.none
      | Option.none => Option.none
    else Option.none)

/-- `_resolve_field`: sort candidates by priority descending (stable) and
return the highest-priority value, `none` if there is no candidate. -/
def resolve_field (sources : List (String × String)) (raw : RawData) :
    Option Val :=
  if (resolve_candidates sources raw).isEmpty then none
  else ((sortDescBy (fun c => c.1) (resolve_candidates sources raw)).head?).map
    (fun c => c.2)

/-- `_estimate_employee_count_from_range`: midpoint of a closed range,
`int(base * 1.5)` for an open-ended `"N+"` range, a bare integer otherwise;
`None` when unparseable. -/
def estimate_employee_count_from_range (range_str : String) : Option Int :=
  if range_str = "" then none
  else
    let s := pyReplace (pyReplace (pyStrip range_str) "," "") " " ""
    if pyEndsWithChar '+' s then
      match pyParseInt ⟨s.data.dropLast⟩ with
      | some base => some ((3 * base).tdiv 2)
      | none => none
    else if pyContains s "-" then
      match pySplitOnChar '-' s with
      | [lowS, highS] =>
        match pyParseInt lowS, pyParseInt highS with
        | some low, some high => some ((low + high).fdiv 2)
        | _, _ => none
      | _ => pyParseInt s
    else
      pyParseInt s

/-- `_normalize_industry`: exact lookup, then longest-pattern-first substring
scan, else the lowercased input with spaces/hyphens replaced by
underscores; `none` for empty/whitespace input. -/
def normalize_industry (raw_industry : String) : Option String :=
  if pyStrip raw_industry = "" then none
  else
    let raw_lower := pyStrip (pyLower raw_industry)
    match INDUSTRY_NORMALIZATION.lookup raw_lower with
    | some v => some v
    | none =>
      let sorted_keys :=
        sortDescBy (fun k => k.length) (INDUSTRY_NORMALIZATION.map Prod.fst)
      match sorted_keys.find? (fun pattern => pyContains raw_lower pattern) with
      | some pattern => INDUSTRY_NORMALIZATION.lookup pattern
      | none => some (pyReplace (pyReplace raw_lower " " "_") "-" "_")

/-- The employee-count backfill step shared by the range and size strings:
`if estimated:` guards against a zero estimate (Python falsiness). -/
def employee_backfill_step (n : PyDict) (key : String) : PyDict :=
  let range_val := dictGetD n key .none
  if range_val.truthy then
    match range_val with
    | Val.str s =>
      match estimate_employee_count_from_range s with
      | some est =>
        if est ≠ 0 then
          dictSet (dictSet n "employee_count" (Val.int est))
            "employee_count_estimated" (Val.bool true)
        else n
      | none => n
    | _ => n
  else n

/-- The field-mapping merge loop at the top of `_resolve_profile`. -/
def apply_field_mappings (raw : RawData) : PyDict :=
  field_mappings.foldl (fun acc fm =>
    match resolve_field fm.2 raw with
    | some v => dictSet acc fm.1 v
    | none => acc) []

/-- The industry-canonicalization step of `_resolve_profile`
(`industry_raw` keeps the raw value; a whitespace-only raw value stores
`None`).  A non-string truthy industry value would raise in Python and
cannot be produced by the merge; it is left unchanged. -/
def apply_industry_normalization (n : PyDict) : PyDict :=
  if (dictGetD n "industry" .none).truthy then
    match dictGetD n "industry" .none with
    | Val.str s =>
      dictSet (dictSet n "industry_raw" (Val.str s)) "industry"
        (match normalize_industry s with
         | some canonical => Val.str canonical
         | none => Val.none)
    | _ => n
  else n

/-- The hunter email-verification block of `_resolve_profile`: note it
checks only the `_error` flag, not `_mock`. -/
def apply_hunter_block (raw : RawData) (n : PyDict) : PyDict :=
  if dictTruthy (rawGet raw "hunter")
      ∧ ¬ flagTruthy (rawGet raw "hunter") "_error" then
    dictSet (dictSet (dictSet n
      "email_verified"
        (Val.bool (match dictGet (rawGet raw "hunter") "status" with
                   | some (Val.str s) => s = "valid"
                   | _ => false)))
      "email_score" (dictGetD (rawGet raw "hunter") "score" .none))
      "email_deliverable"
        (Val.bool (match dictGet (rawGet raw "hunter") "result" with
                   | some (Val.str s) => s = "deliverable"
                   | _ => false))
  else n

/-- The gnews company-context block of `_resolve_profile` (again only the
`_error` flag is checked). -/
def apply_gnews_block (raw : RawData) (n : PyDict) : PyDict :=
  if dictTruthy (rawGet raw "gnews")
      ∧ ¬ flagTruthy (rawGet raw "gnews") "_error" then
    dictSet (dictSet (dictSet (dictSet (dictSet n
      "company_context" (dictGetD (rawGet raw "gnews") "answer" .none))
      "recent_news" (dictGetD (rawGet raw "gnews") "results" (Val.list [])))
      "news_themes" (dictGetD (rawGet raw "gnews") "themes" (Val.list [])))
      "news_sentiment"
        (dictGetD (rawGet raw "gnews") "sentiment_indicators" (Val.dict [])))
      "news_by_category" (dictGetD (rawGet raw "gnews") "categorized" (Val.dict []))
  else n

/-- The deep pdl_company block of `_resolve_profile` (only the `_error`
flag is checked), including the employee-count merge. -/
def apply_pdl_company_block (raw : RawData) (n : PyDict) : PyDict :=
  if dictTruthy (rawGet raw "pdl_company")
      ∧ ¬ flagTruthy (rawGet raw "pdl_company") "_error" then
    let base := dictSet (dictSet (dictSet (dictSet (dictSet (dictSet
      (dictSet (dictSet (dictSet n
      "company_summary" (dictGetD (rawGet raw "pdl_company") "summary" .none))
      "company_headline" (dictGetD (rawGet raw "pdl_company") "headline" .none))
      "company_type" (dictGetD (rawGet raw "pdl_company") "type" .none))
      "company_tags" (dictGetD (rawGet raw "pdl_company") "tags" (Val.list [])))
      "total_funding"
        (dictGetD (rawGet raw "pdl_company") "total_funding_raised" .none))
      "latest_funding_stage"
        (dictGetD (rawGet raw "pdl_company") "latest_funding_stage" .none))
      "employee_growth_rate"
        (dictGetD (rawGet raw "pdl_company") "employee_growth_rate" .none))
      "inferred_revenue"
        (dictGetD (rawGet raw "pdl_company") "inferred_revenue" .none))
      "company_linkedin"
        (dictGetD (rawGet raw "pdl_company") "linkedin_url" .none)
    if ¬ (dictGetD base "employee_count" .none).truthy
        ∧ (dictGetD (rawGet raw "pdl_company") "employee_count" .none).truthy then
      dictSet base "employee_count"
        (dictGetD (rawGet raw "pdl_company") "employee_count" .none)
    else base
  else n

/-- The final employee-count backfill of `_resolve_profile` (range string
first, then company size, each re-checking that the count is still
missing). -/
def apply_employee_backfill (n : PyDict) : PyDict :=
  if ¬ (dictGetD n "employee_count" .none).truthy then
    if ¬ (dictGetD (employee_backfill_step n "employee_count_range")
        "employee_count" .none).truthy then
      employee_backfill_step (employee_backfill_step n "employee_count_range")
        "company_size"
    else employee_backfill_step n "employee_count_range"
  else n

/-- `_resolve_profile`: field-mapping merge, industry canonicalization,
direct copies from hunter / gnews / pdl_company (these check only the
`_error` flag), then the employee-count backfill.  `email` and `domain`
are unused by the source body (metadata is attached by `enrich`). -/
def resolve_profile (email domain : String) (raw : RawData) : PyDict :=
  apply_employee_backfill
    (apply_pdl_company_block raw
      (apply_gnews_block raw
        (apply_hunter_block raw
          (apply_industry_normalization (apply_field_mappings raw)))))

/-! ## `context_inference_service.py`: keyword sets

Python `set` literals; only membership / `any` checks are performed on
them, so the embedding as lists is order-insensitive. -/

def AI_CLOUD_KEYWORDS : List String :=
  ["ai", "artificial intelligence", "machine learning", "cloud", "saas",
   "cloud computing", "deep learning", "neural", "gpu"]

def MODERN_TECH_KEYWORDS : List String :=
  ["kubernetes", "docker", "microservices", "devops", "serverless",
   "cloud-native"]

def TRANSFORMATION_KEYWORDS : List String :=
  ["digital transformation", "modernization", "migration", "cloud migration",
   "transformation"]

def COST_KEYWORDS : List String :=
  ["cost reduction", "cost savings", "efficiency", "cost optimization",
   "budget", "expense"]

def AI_ADOPTION_KEYWORDS : List String :=
  ["ai adoption", "machine learning", "artificial intelligence",
   "generative ai", "llm", "ai strategy"]

def GROWTH_KEYWORDS : List String :=
  ["expansion", "growth", "scaling", "acquisition", "new market"]

def TALENT_KEYWORDS : List String :=
  ["talent", "hiring", "skills gap", "workforce", "recruitment",
   "skills shortage"]

def INTEGRATION_KEYWORDS : List String :=
  ["integration", "interoperability", "compatibility", "migration", "legacy"]

def INVESTMENT_KEYWORDS : List String :=
  ["investment", "funding", "capital", "acquisition", "strategic investment",
   "secures", "raises", "raised", "series"]

def PILOT_KEYWORDS : List String :=
  ["pilot", "proof of concept", "poc", "testing", "trial", "prototype"]

def DATA_AI_ROLE_KEYWORDS : List String :=
  ["data", "ai", "ml", "analytics", "machine learning",
   "artificial intelligence"]

def CLOUD_TAGS : List String :=
  ["cloud", "cloud computing", "aws", "azure", "gcp", "google cloud", "saas",
   "iaas", "paas"]

def AI_ML_TAGS : List String :=
  ["artificial intelligence", "machine learning", "deep learning",
   "data science", "neural network", "nlp", "computer vision",
   "generative ai"]

def TRADITIONAL_TAGS : List String :=
  ["mainframe", "on-premise", "on-premises", "legacy", "cobol", "erp"]

def SECURITY_TAGS : List String :=
  ["cybersecurity", "security", "information security", "compliance",
   "zero trust", "identity management"]

def DATA_TAGS : List String :=
  ["big data", "analytics", "data warehouse", "data lake",
   "business intelligence", "data engineering"]

/-! ## `context_inference_service.py`: data model -/

/-- A news article as the inference service reads it
(`article.get("title") or ""` and likewise for content). -/
structure Article where
  title : String := ""
  content : String := ""
deriving DecidableEq

/-- The normalized-profile fields the context-inference service reads.
`none` models a missing key (every getter in the source supplies a
default). -/
structure Profile where
  company_tags : Option (List String) := none
  news_themes : Option (List String) := none
  recent_news : Option (List Article) := none
  founded_year : Option Int := none
  employee_count : Option Int := none
  employee_growth_rate : Option ℚ := none
  latest_funding_stage : Option String := none
  total_funding : Option ℚ := none
  title : Option String := none
  seniority : Option String := none
  industry : Option String := none
  company_summary : Option String := none
deriving DecidableEq

/-- Python truthiness of an optional list field. -/
def optTruthyList (o : Option (List α)) : Bool :=
  match o with
  | some l => ¬ l.isEmpty
  | none => false

/-- Python truthiness of an optional string field. -/
def optTruthyStr (o : Option String) : Bool :=
  match o with
  | some s => s ≠ ""
  | none => false

/-- Python truthiness of an optional integer field. -/
def optTruthyInt (o : Option Int) : Bool :=
  match o with
  | some n => n ≠ 0
  | none => false

/-- Python truthiness of an optional numeric field. -/
def optTruthyRat (o : Option ℚ) : Bool :=
  match o with
  | some q => q ≠ 0
  | none => false

/-! ## `context_inference_service.py`: search helpers -/

/-- `_search_text`: any keyword appears in the lowercased text. -/
def search_text (text : String) (keywords : List String) : Bool :=
  if text = "" then false
  else keywords.any (fun kw => pyContains (pyLower text) kw)

/-- `_search_articles`: any keyword appears in an article title or content. -/
def search_articles (articles : List Article) (keywords : List String) : Bool :=
  articles.any (fun article =>
    keywords.any (fun kw =>
      pyContains (pyLower article.title) kw
        || pyContains (pyLower article.content) kw))

/-- `_search_themes`: any keyword appears in a (non-empty) theme. -/
def search_themes (themes : List String) (keywords : List String) : Bool :=
  themes.any (fun theme =>
    theme ≠ "" && keywords.any (fun kw => pyContains (pyLower theme) kw))

/-- `_search_tags` is `_search_themes` on the tag list. -/
def search_tags (tags : List String) (keywords : List String) : Bool :=
  search_themes tags keywords

/-! ## Tag-based tech signals -/

/-- Keep the first occurrence of each element (models `list(set(...))` up to
the arbitrary ordering Python would produce; only emptiness / membership is
consumed). -/
def dedupKeepFirst : List String → List String
  | [] => []
  | x :: xs => x :: (dedupKeepFirst xs).filter (fun y => y ≠ x)

/-- `_match_tag`: exact membership, or containment of a long (`> 4` chars)
keyword. -/
def match_tag (tag : String) (category : List String) : Bool :=
  category.contains tag
    || category.any (fun kw => kw.length > 4 && pyContains tag kw)

/-- Output of `extract_tech_signals_from_tags`. -/
structure TechSignals where
  cloud : List String
  ai_ml : List String
  traditional : List String
  security : List String
  data : List String
  maturity : String
deriving DecidableEq

/-- `extract_tech_signals_from_tags`: bucket the lowercased tags and derive
the maturity level. -/
def extract_tech_signals_from_tags (tags : List String) : TechSignals :=
  if tags.isEmpty then ⟨[], [], [], [], [], "unknown"⟩
  else
    let tags_lower := (tags.filter (fun t => t ≠ "")).map (fun t => pyStrip (pyLower t))
    let cloud := tags_lower.filter (fun t => match_tag t CLOUD_TAGS)
    let ai_ml := tags_lower.filter (fun t => match_tag t AI_ML_TAGS)
    let traditional := tags_lower.filter (fun t => match_tag t TRADITIONAL_TAGS)
    let security := tags_lower.filter (fun t => match_tag t SECURITY_TAGS)
    let data := tags_lower.filter (fun t => match_tag t DATA_TAGS)
    let maturity :=
      if ¬ ai_ml.isEmpty ∧ ¬ cloud.isEmpty then "advanced"
      else if ¬ cloud.isEmpty ∨ ¬ ai_ml.isEmpty then "modern"
      else if ¬ traditional.isEmpty then "traditional"
      else "mixed"
    ⟨dedupKeepFirst cloud, dedupKeepFirst ai_ml, dedupKeepFirst traditional,
     dedupKeepFirst security, dedupKeepFirst data, maturity⟩

/-! ## The five inference cascades -/

/-- `infer_it_environment`. -/
def infer_it_environment (profile : Profile) : String :=
  let tags := profile.company_tags.getD []
  let themes := profile.news_themes.getD []
  let industry := pyLower (profile.industry.getD "")
  let founded := profile.founded_year
  if ¬ tags.isEmpty ∧ (extract_tech_signals_from_tags tags).maturity = "advanced" then
    "modern"
  else if ¬ tags.isEmpty ∧ (extract_tech_signals_from_tags tags).maturity = "traditional" then
    "traditional"
  else if search_tags tags (AI_CLOUD_KEYWORDS ++ MODERN_TECH_KEYWORDS) then
    "modern"
  else if (match founded with
           | some y => decide (y ≠ 0 ∧ y > 2015
              ∧ industry ∈ ["technology", "software", "saas", "cloud"])
           | none => false) then
    "modern"
  else if search_themes themes TRANSFORMATION_KEYWORDS then
    "modernizing"
  else if search_themes themes AI_CLOUD_KEYWORDS then
    "modernizing"
  else if (match founded with
           | some y => decide (y ≠ 0 ∧ y < 2000
              ∧ industry ∉ ["technology", "software", "saas", "cloud"])
           | none => false) then
    "traditional"
  else
    "modernizing"

/-- `infer_business_priority`. -/
def infer_business_priority (profile : Profile) : String :=
  let themes := profile.news_themes.getD []
  let articles := profile.recent_news.getD []
  let title := pyLower (profile.title.getD "")
  let tags := profile.company_tags.getD []
  let growth_rate := profile.employee_growth_rate
  if search_themes themes COST_KEYWORDS || search_articles articles COST_KEYWORDS then
    "reducing_cost"
  else if search_text title DATA_AI_ROLE_KEYWORDS then
    "preparing_ai"
  else if search_themes themes AI_ADOPTION_KEYWORDS
      || search_articles articles AI_ADOPTION_KEYWORDS then
    "preparing_ai"
  else if search_tags tags AI_CLOUD_KEYWORDS then
    "preparing_ai"
  else if (match growth_rate with
           | some g => decide (g ≠ 0 ∧ g > 3/10)
           | none => false) then
    "improving_performance"
  else if search_themes themes GROWTH_KEYWORDS
      || search_articles articles GROWTH_KEYWORDS then
    "improving_performance"
  else
    "preparing_ai"

/-- `infer_challenge`. -/
def infer_challenge (profile : Profile) : String :=
  let industry := pyLower (profile.industry.getD "")
  let founded := profile.founded_year
  let employee_count := profile.employee_count
  let articles := profile.recent_news.getD []
  let themes := profile.news_themes.getD []
  if ["health", "financial", "banking", "insurance", "pharma"].any
      (fun ind => pyContains industry ind) then
    "data_governance"
  else if search_articles articles TALENT_KEYWORDS
      || search_themes themes TALENT_KEYWORDS then
    "skills_gap"
  else if (match employee_count with
           | some c => decide (c ≠ 0 ∧ c < 200)
           | none => false) then
    "resource_constraints"
  else if search_articles articles INTEGRATION_KEYWORDS
      || search_themes themes INTEGRATION_KEYWORDS then
    "integration_friction"
  else if (match founded with
           | some y => decide (y ≠ 0 ∧ y < 2005
              ∧ industry ∉ ["technology", "software", "saas", "cloud"])
           | none => false) then
    "legacy_systems"
  else
    "legacy_systems"

/-- `infer_urgency_level`. -/
def infer_urgency_level (profile : Profile) : String :=
  let growth_rate := profile.employee_growth_rate
  let funding_stage := profile.latest_funding_stage
  let total_funding := profile.total_funding
  let employee_count := profile.employee_count
  if (match growth_rate with
      | some g => decide (g ≠ 0 ∧ g > 2/5)
      | none => false) then
    "high"
  else if optTruthyStr funding_stage && optTruthyRat total_funding then
    "high"
  else if (match growth_rate with
           | some g => decide (g ≠ 0 ∧ g < 0)
           | none => false) then
    "low"
  else if ((match employee_count with
           | some c => decide (c ≠ 0 ∧ c < 100)
           | none => false)
      && (match growth_rate with
          | some g => decide (g ≤ 0)
          | none => true)) then
    "low"
  else
    "medium"

/-- `infer_journey_stage`. -/
def infer_journey_stage (profile : Profile) : String :=
  let seniority := pyLower (profile.seniority.getD "")
  let title := pyLower (profile.title.getD "")
  let articles := profile.recent_news.getD []
  let funding_stage := profile.latest_funding_stage
  let is_c_level := decide (seniority ∈ ["c_suite", "cxo"])
    || ["ceo", "cto", "cio", "cfo", "ciso", "coo", "chief"].any
        (fun t => pyContains title t)
  let has_investment_news := search_articles articles INVESTMENT_KEYWORDS
  if is_c_level && has_investment_news then
    "decision"
  else if search_articles articles PILOT_KEYWORDS then
    "implementation"
  else if optTruthyStr funding_stage then
    "consideration"
  else
    "consideration"

/-! ## Confidence score -/

/-- The number of truthy entries among the 11 fixed signal fields (in the
source's list order). -/
def signals_present (profile : Profile) : Nat :=
  (if optTruthyList profile.company_tags then 1 else 0)
  + (if optTruthyList profile.news_themes then 1 else 0)
  + (if optTruthyList profile.recent_news then 1 else 0)
  + (if optTruthyInt profile.founded_year then 1 else 0)
  + (if optTruthyInt profile.employee_count then 1 else 0)
  + (if optTruthyRat profile.employee_growth_rate then 1 else 0)
  + (if optTruthyStr profile.latest_funding_stage then 1 else 0)
  + (if optTruthyStr profile.title then 1 else 0)
  + (if optTruthyStr profile.seniority then 1 else 0)
  + (if optTruthyStr profile.industry then 1 else 0)
  + (if optTruthyStr profile.company_summary then 1 else 0)

/-- The flat news bonus: `0.1` when `recent_news` is a list of `≥ 3`
articles. -/
def news_bonus (profile : Profile) : ℚ :=
  if (match profile.recent_news with
      | some l => decide (l.length ≥ 3)
      | none => false) then 1/10 else 0

/-- `_calculate_confidence`: base `0.2`, plus `(present / 11) × 0.7`, plus
the news bonus, capped at `1.0`. -/
def calculate_confidence (profile : Profile) : ℚ :=
  let score : ℚ := 1/5
  let score := score + ((signals_present profile : ℚ) / 11) * (7/10)
  let score := score + news_bonus profile
  min 1 score

/-! ## `infer_context` -/

/-- Rounding to two decimals (`round(x, 2)`; every value the source rounds
is an exact multiple of `1/100` away from a tie, so the banker's-rounding
distinction never arises). -/
def round2 (q : ℚ) : ℚ :=
  ((round (q * 100) : ℤ) : ℚ) / 100

/-- The result dict of `infer_context`. -/
structure InferredContext where
  it_environment : String
  business_priority : String
  primary_challenge : String
  urgency_level : String
  journey_stage : String
  confidence_score : ℚ
  tech_signals : Option TechSignals
deriving DecidableEq

/-- `infer_context`: run the five cascades; a caller-supplied `user_goal`
that is truthy and non-blank is used verbatim as the journey stage. -/
def infer_context (profile : Profile) (user_goal : Option String) :
    InferredContext :=
  let it_env := infer_it_environment profile
  let priority := infer_business_priority profile
  let challenge := infer_challenge profile
  let urgency := infer_urgency_level profile
  let stage :=
    match user_goal with
    | some g => if pyStrip g ≠ "" then g else infer_journey_stage profile
    | none => infer_journey_stage profile
  let confidence := calculate_confidence profile
  let tags := profile.company_tags.getD []
  let tech_signals :=
    if ¬ tags.isEmpty then some (extract_tech_signals_from_tags tags)
    else none
  ⟨it_env, priority, challenge, urgency, stage, round2 confidence, tech_signals⟩

/-! ## `news_analysis_service.py`: AI-readiness detection -/

def AI_EXPLORING_KEYWORDS : List String :=
  ["exploring ai", "exploring artificial intelligence", "ai strategy",
   "ai roadmap", "evaluating ai", "considering ai", "ai opportunity",
   "ai opportunities"]

def AI_PILOTING_KEYWORDS : List String :=
  ["pilot", "proof of concept", "poc", "testing ai", "ai trial",
   "ai experiment", "piloting"]

def AI_DEPLOYED_KEYWORDS : List String :=
  ["deployed", "in production", "ai-powered", "machine learning platform",
   "ai infrastructure", "ml pipeline", "ai at scale", "production ai",
   "production ml"]

/-- `_get_article_text`: join all non-empty titles and contents with single
spaces and lowercase the result. -/
def get_article_text (articles : List Article) : String :=
  let parts := articles.flatMap (fun article =>
    (if article.title ≠ "" then [article.title] else [])
      ++ (if article.content ≠ "" then [article.content] else []))
  pyLower (String.intercalate " " parts)

/-- `_count_keyword_hits`: how many keywords occur in the text. -/
def count_keyword_hits (text : String) (keywords : List String) : Nat :=
  if text = "" then 0
  else (keywords.filter (fun kw => pyContains (pyLower text) kw)).length

/-- Result of `detect_ai_readiness_signals`. -/
structure AIReadiness where
  stage : String
  confidence : ℚ
  signals : List String
deriving DecidableEq

/-- `detect_ai_readiness_signals`: stage from keyword-hit counts, with the
final confidence `round(min(1.0, confidence), 2)`. -/
def detect_ai_readiness_signals (articles : List Article) : AIReadiness :=
  if articles.isEmpty then ⟨"none", 0, []⟩
  else
    let combined_text := get_article_text articles
    let deployed_hits := count_keyword_hits combined_text AI_DEPLOYED_KEYWORDS
    let piloting_hits := count_keyword_hits combined_text AI_PILOTING_KEYWORDS
    let exploring_hits := count_keyword_hits combined_text AI_EXPLORING_KEYWORDS
    let result : String × ℚ × List String :=
      if deployed_hits ≥ 2 then
        ("deployed", min 1 (1/2 + (deployed_hits : ℚ) * (3/20)),
         ["AI deployment signals: " ++ toString deployed_hits])
      else if deployed_hits ≥ 1 then
        ("deployed", 1/2 + (deployed_hits : ℚ) * (1/10),
         ["AI deployment mention: " ++ toString deployed_hits])
      else if piloting_hits ≥ 1 then
        ("piloting", 3/10 + (piloting_hits : ℚ) * (3/20),
         ["AI piloting signals: " ++ toString piloting_hits])
      else if exploring_hits ≥ 1 then
        ("exploring", 1/5 + (exploring_hits : ℚ) * (1/10),
         ["AI exploration signals: " ++ toString exploring_hits])
      else
        ("none", 0, [])
    ⟨result.1, round2 (min 1 result.2.1), result.2.2⟩

/-- Banned phrase list (AMD content rules). -/
def EXEC_REVIEW_BANNED_PHRASES : List String := [
  "in today's landscape",
  "in today's world",
  "in today's environment",
  "in the current landscape",
  "in an era of",
  "in this rapidly evolving",
  "rapidly evolving",
  "ever-changing",
  "ever-evolving",
  "fast-paced",
  "digital transformation journey",
  "unlock the power",
  "unlock the potential",
  "harness the power",
  "leverage the power",
  "paradigm shift",
  "synergy",
  "synergies",
  "cutting-edge",
  "cutting edge",
  "next-generation",
  "next generation",
  "state-of-the-art",
  "best-in-class",
  "world-class",
  "revolutionary",
  "groundbreaking",
  "game-changing",
  "game changer",
  "unprecedented",
  "unparalleled",
  "unmatched",
  "transformative",
  "act now",
  "don't miss",
  "limited time",
  "hurry"
]


/-! ## `executive_review_service.py`: field specs and banned content -/

/-- Character and word limits for one field kind (`FIELD_SPECS` entries). -/
structure FieldSpec where
  min_chars : Nat
  max_chars : Nat
  min_words : Nat
  max_words : Nat
deriving DecidableEq

def headline_spec : FieldSpec := ⟨20, 80, 4, 12⟩
def description_spec : FieldSpec := ⟨150, 400, 25, 65⟩
def rec_title_spec : FieldSpec := ⟨20, 80, 4, 12⟩
def rec_description_spec : FieldSpec := ⟨200, 550, 35, 90⟩
def executive_summary_spec : FieldSpec := ⟨200, 600, 35, 90⟩
def case_study_relevance_spec : FieldSpec := ⟨150, 500, 25, 80⟩

/-- Characters that may not appear in content (colon: headlines only). -/
def BANNED_CHARACTERS : List Char := ['—', '–', '!', ':']

/-- Characters banned only in headlines/titles. -/
def BANNED_IN_HEADLINES : List Char := [':']

/-- The `char_name` display map in `_validate_field`. -/
def banned_char_name (c : Char) : String :=
  if c = '—' then "em dash"
  else if c = '–' then "en dash"
  else if c = '!' then "exclamation mark"
  else if c = ':' then "colon"
  else String.singleton c

/-! ## Validator -/

/-- One entry of the validator's failure list. -/
structure VFailure where
  field : String
  reason : String
  value : String
deriving DecidableEq

/-- Python `repr` of a list of strings (appears inside failure reasons). -/
def py_list_repr (l : List String) : String :=
  "[" ++ String.intercalate ", " (l.map (fun s => "'" ++ s ++ "'")) ++ "]"

/-- `_validate_field`: the failures contributed by a single field, in source
order (char limits, word limits, banned phrases, banned characters, the
headline-only block whose condition is always false because `:` is already
in `BANNED_CHARACTERS`). -/
def validate_field (value : String) (field_path : String) (spec : FieldSpec)
    (is_headline : Bool) : List VFailure :=
  if value = "" then [⟨field_path, "Empty value", ""⟩]
  else
    let char_count := value.length
    let word_count := (pySplitWs value).length
    let limitF :=
      (if char_count < spec.min_chars then
        [⟨field_path, "Below min chars (" ++ toString char_count ++ "/"
            ++ toString spec.min_chars ++ ")", value⟩] else [])
      ++ (if char_count > spec.max_chars then
        [⟨field_path, "Exceeds max chars (" ++ toString char_count ++ "/"
            ++ toString spec.max_chars ++ ")", value⟩] else [])
      ++ (if word_count < spec.min_words then
        [⟨field_path, "Below min words (" ++ toString word_count ++ "/"
            ++ toString spec.min_words ++ ")", value⟩] else [])
      ++ (if word_count > spec.max_words then
        [⟨field_path, "Exceeds max words (" ++ toString word_count ++ "/"
            ++ toString spec.max_words ++ ")", value⟩] else [])
    let value_lower := pyLower value
    let phraseF := EXEC_REVIEW_BANNED_PHRASES.filterMap (fun phrase =>
      if pyContains value_lower (pyLower phrase) then
        some ⟨field_path, "Contains banned phrase: '" ++ phrase ++ "'", value⟩
      else none)
    let charF := BANNED_CHARACTERS.filterMap (fun c =>
      if value.data.contains c then
        if c = ':' ∧ ¬ is_headline then none
        else some ⟨field_path, "Contains banned character: "
            ++ banned_char_name c, value⟩
      else none)
    let headF :=
      if is_headline then
        BANNED_IN_HEADLINES.filterMap (fun c =>
          if value.data.contains c ∧ ¬ BANNED_CHARACTERS.contains c then
            some ⟨field_path, "Headline contains banned character: colon", value⟩
          else none)
      else []
    limitF ++ phraseF ++ charF ++ headF

/-- One advantage/risk item (`{"headline": …, "description": …}`). -/
structure ERItem where
  headline : String := ""
  description : String := ""
deriving DecidableEq

/-- One recommendation item (`{"title": …, "description": …}`). -/
structure RecItem where
  title : String := ""
  description : String := ""
deriving DecidableEq

/-- The generated-content dict as the validator reads it (missing keys are
`content.get(…, "")` / `content.get(…, [])`, embedded as defaults). -/
structure ERContent where
  company_name : String := ""
  executive_summary : String := ""
  advantages : List ERItem := []
  risks : List ERItem := []
  recommendations : List RecItem := []
  case_study_relevance : String := ""
deriving DecidableEq

/-- `_extract_keywords`: lowercase, split on whitespace, drop stop-words and
tokens of length `≤ 2`. -/
def extract_keywords (phrase : String) : List String :=
  if phrase = "" then []
  else
    let stopwords := ["the", "a", "an", "of", "for", "and", "or", "in", "to",
                      "is", "at", "by", "on"]
    (pySplitWs (pyLower phrase)).filter
      (fun w => ¬ stopwords.contains w ∧ w.length > 2)

/-- The per-field structural checks of `validate_executive_review_content`
(executive summary, advantages, risks, recommendations, case-study
relevance), in source order. -/
def structural_failures (content : ERContent) : List VFailure :=
  let execF :=
    if content.executive_summary ≠ "" then
      validate_field content.executive_summary "executive_summary"
        executive_summary_spec false
    else []
  let advF := content.advantages.enum.flatMap (fun ia =>
    validate_field ia.2.headline
      ("advantages[" ++ toString ia.1 ++ "].headline") headline_spec true
    ++ validate_field ia.2.description
      ("advantages[" ++ toString ia.1 ++ "].description") description_spec false)
  let riskF := content.risks.enum.flatMap (fun ia =>
    validate_field ia.2.headline
      ("risks[" ++ toString ia.1 ++ "].headline") headline_spec true
    ++ validate_field ia.2.description
      ("risks[" ++ toString ia.1 ++ "].description") description_spec false)
  let recF := content.recommendations.enum.flatMap (fun ia =>
    validate_field ia.2.title
      ("recommendations[" ++ toString ia.1 ++ "].title") rec_title_spec true
    ++ validate_field ia.2.description
      ("recommendations[" ++ toString ia.1 ++ "].description")
      rec_description_spec false)
  let relF :=
    if content.case_study_relevance ≠ "" then
      validate_field content.case_study_relevance "case_study_relevance"
        case_study_relevance_spec false
    else []
  execF ++ advF ++ riskF ++ recF ++ relF

/-- `item.values()` for an advantage/risk item (dict insertion order). -/
def item_values_er (it : ERItem) : List String := [it.headline, it.description]

/-- `item.values()` for a recommendation item. -/
def item_values_rec (it : RecItem) : List String := [it.title, it.description]

/-- The company-name repetition rule: the company name may appear only in
the first item of each repeated-item section. -/
def company_name_failures (content : ERContent) : List VFailure :=
  if content.company_name ≠ "" ∧ content.company_name.length > 2 then
    let cn_lower := pyLower content.company_name
    let perSection := fun (section_key : String) (items : List (List String)) =>
      items.enum.filterMap (fun ii =>
        if ii.1 = 0 then none
        else
          match ii.2.find? (fun v => pyContains (pyLower v) cn_lower) with
          | some v => some (⟨section_key ++ "[" ++ toString ii.1 ++ "]",
              "Company name '" ++ content.company_name
                ++ "' appears in non-first item of " ++ section_key
                ++ " (only allowed in first item)",
              ⟨v.data.take 80⟩⟩ : VFailure)
          | none => none)
    perSection "advantages" (content.advantages.map item_values_er)
    ++ perSection "risks" (content.risks.map item_values_er)
    ++ perSection "recommendations" (content.recommendations.map item_values_rec)
  else []

/-- Blocking personalization: the first advantage must contain a keyword of
the stated priority. -/
def personalization_adv_failures (content : ERContent) (priority : String) :
    List VFailure :=
  if priority ≠ "" then
    match content.advantages with
    | adv0 :: _ =>
      let adv0_text := pyLower (adv0.headline ++ " " ++ adv0.description)
      let priority_keywords := extract_keywords priority
      if ¬ priority_keywords.any (fun kw => pyContains adv0_text kw) then
        [⟨"advantages[0]",
          "First advantage does not reference the stated priority '" ++ priority
            ++ "'. Must contain at least one keyword: "
            ++ py_list_repr priority_keywords,
          adv0.headline⟩]
      else []
    | [] => []
  else []

/-- Blocking personalization: the first risk must contain a keyword of the
stated challenge. -/
def personalization_risk_failures (content : ERContent) (challenge : String) :
    List VFailure :=
  if challenge ≠ "" then
    match content.risks with
    | risk0 :: _ =>
      let risk0_text := pyLower (risk0.headline ++ " " ++ risk0.description)
      let challenge_keywords := extract_keywords challenge
      if ¬ challenge_keywords.any (fun kw => pyContains risk0_text kw) then
        [⟨"risks[0]",
          "First risk does not reference the stated challenge '" ++ challenge
            ++ "'. Must contain at least one keyword: "
            ++ py_list_repr challenge_keywords,
          risk0.headline⟩]
      else []
    | [] => []
  else []

/-- Blocking personalization: the case-study relevance must mention an
industry or challenge keyword (skipped when the combined list is empty). -/
def personalization_cs_failures (content : ERContent)
    (challenge industry : String) : List VFailure :=
  if industry ≠ "" ∨ challenge ≠ "" then
    if content.case_study_relevance ≠ "" then
      let relevance_lower := pyLower content.case_study_relevance
      let industry_keywords := if industry ≠ "" then extract_keywords industry else []
      let challenge_keywords := if challenge ≠ "" then extract_keywords challenge else []
      let all_relevance_keywords := industry_keywords ++ challenge_keywords
      if ¬ all_relevance_keywords.isEmpty
          ∧ ¬ all_relevance_keywords.any (fun kw => pyContains relevance_lower kw) then
        [⟨"case_study_relevance",
          "Case study relevance does not mention the user's industry ('"
            ++ industry ++ "') or challenge ('" ++ challenge ++ "')",
          ⟨content.case_study_relevance.data.take 80⟩⟩]
      else []
    else []
  else []

/-- The three blocking personalization checks, in source order. -/
def personalization_failures (content : ERContent)
    (priority challenge industry : String) : List VFailure :=
  personalization_adv_failures content priority
  ++ personalization_risk_failures content challenge
  ++ personalization_cs_failures content challenge industry

/-- Result of the validator. -/
structure VResult where
  passed : Bool
  failures : List VFailure
deriving DecidableEq

/-- `validate_executive_review_content`: all checks in source order;
`passed` iff the failure list is empty. -/
def validate_executive_review_content (content : ERContent)
    (priority challenge industry : String) : VResult :=
  let failures :=
    structural_failures content
    ++ company_name_failures content
    ++ personalization_failures content priority challenge industry
  ⟨failures.isEmpty, failures⟩

/-! ## Few-shot examples pool and fallback -/

/-- The `profile` half of a few-shot example. -/
structure ExampleProfile where
  company : String
  industry : String
  segment : String
  persona : String
  stage : String
  priority : String
  challenge : String
deriving DecidableEq

/-- The `output` half of a few-shot example. -/
structure ExampleOutput where
  executive_summary : String
  advantages : List ERItem
  risks : List ERItem
  recommendations : List RecItem
  case_study_relevance : String
  case_study : String
deriving DecidableEq

/-- One curated few-shot example. -/
structure Example where
  profile : ExampleProfile
  output : ExampleOutput
deriving DecidableEq

/-- The curated few-shot example pool, two examples per stage. -/
def FEW_SHOT_EXAMPLES_POOL : List (String × List Example) := [
 ("Observer", [
  ⟨⟨"AECOM", "AEC", "Enterprise", "ITDM", "Observer", "Reducing cost", "Legacy systems"⟩,
   ⟨"AECOM's infrastructure portfolio spans thousands of project sites running legacy BIM, CAD, and ERP systems that drive escalating maintenance costs. This assessment identifies where targeted modernization of high-cost legacy workloads can deliver measurable savings while building a foundation for future capabilities.",
    [⟨"Cost savings from reducing legacy system overhead",
      "Retiring aging on-prem storage and compute tied to BIM and CAD workflows lowers operating costs across AECOM's globally distributed project teams. By consolidating redundant infrastructure, IT can redirect budget toward modernization priorities while reducing the maintenance hours spent on end-of-life hardware and software licensing."⟩,
     ⟨"Efficiency gains through standardizing project data environments",
      "Unifying fragmented BIM, CAD, and project data platforms across regions creates immediate workflow efficiencies without requiring major architectural change. Standardized environments reduce onboarding time for distributed teams and eliminate the duplicated tooling costs that come from each project site running its own infrastructure stack."⟩],
    [⟨"High total cost of ownership from legacy infrastructure",
      "Running large, outdated on-prem systems at enterprise scale drives rising support, licensing, and hardware refresh costs that directly conflict with cost-reduction goals. Without a clear modernization path, these legacy systems will consume an increasing share of IT budget while delivering diminishing returns on reliability and performance."⟩,
     ⟨"Integration gaps that add avoidable project costs",
      "Siloed tools and limited interoperability across field, design, and ERP systems increase rework risk on major construction projects. Each manual data handoff between disconnected platforms introduces errors that compound across AECOM's global project portfolio, making secure integration harder for IT teams to manage."⟩],
    [⟨"Modernize the highest-cost legacy workloads first",
      "Target the most cost-intensive on-prem systems, starting with storage and compute tied to BIM and CAD workflows. Focus on the workloads where maintenance contracts are expiring or hardware refresh cycles are imminent, as these represent the clearest opportunities to reduce spend while improving stability for distributed project teams."⟩,
     ⟨"Standardize core infrastructure to reduce regional fragmentation",
      "Adopt consistent tooling and platform standards across AECOM's regional offices to lower integration effort for ITDM teams. This eliminates duplicated licensing spend across project sites and creates a unified environment that simplifies support, reduces training overhead, and accelerates new project onboarding."⟩,
     ⟨"Build a scalable foundation for future AI-driven design tools",
      "Upgrade underlying compute and storage infrastructure to support emerging AI-driven design, planning, and project management tools. Investing in scalable architecture now prevents the costly cycle of repeated rework that occurs when new capabilities are layered onto infrastructure that cannot handle the additional workload."⟩],
    "Smurfit Westrock's 25% infrastructure cost reduction demonstrates what enterprise-scale legacy modernization delivers when executed with clear prioritization. Like AECOM, they operated distributed facilities with aging on-prem systems driving escalating maintenance costs. Their phased approach to consolidation and standardization mirrors the path AECOM can follow to reduce technical debt across its global project portfolio.",
    "Smurfit Westrock"⟩⟩,
  ⟨⟨"Allbirds", "Consumer Goods", "SMB", "BDM", "Observer", "Reducing cost", "Resource constraints"⟩,
   ⟨"Allbirds operates with lean teams supporting a growing mix of ecommerce, retail, and supply chain systems that are becoming harder to maintain cost-effectively. This assessment identifies where simplifying and modernizing core platforms can reduce operational spend while freeing limited resources to focus on growth priorities.",
    [⟨"Lower operating costs by modernizing high-expense systems",
      "Replacing or consolidating aging ecommerce and inventory infrastructure reduces ongoing maintenance spend and helps Allbirds stretch limited resources further. By targeting the platforms with the highest licensing and support costs first, the business can see measurable savings within the first quarter while improving system reliability for daily retail operations."⟩,
     ⟨"Quick efficiency gains from simplifying fragmented environments",
      "Streamlining the disconnected systems behind ecommerce, inventory, and fulfillment operations cuts redundant manual work and reduces the burden on lean teams. Fewer platforms to manage means less context-switching for staff and faster resolution when issues arise, freeing capacity for growth-focused initiatives."⟩],
    [⟨"Rising costs from continuing to maintain outdated platforms",
      "Legacy ecommerce and operations platforms require increasing support effort and licensing spend as they age. For a lean organization like Allbirds, these rising costs consume budget that could otherwise fund modernization, creating a cycle where resource constraints make it harder to address the root cause of the spending."⟩,
     ⟨"Resource constraints slow progress on foundational modernization",
      "Without additional support or simplification of the current technology stack, the organization may struggle to execute the upgrades needed to reduce cost and improve efficiency. Delayed modernization compounds the maintenance burden on already stretched teams, making each quarter harder than the last."⟩],
    [⟨"Modernize the systems driving the highest operational costs",
      "Update or consolidate the platforms behind Allbirds' ecommerce, inventory, and fulfillment operations to reduce maintenance spend. Prioritize the systems with the most expensive support contracts or the highest manual intervention requirements, as these deliver the fastest return on modernization investment."⟩,
     ⟨"Simplify the tech stack to reduce workload on lean teams",
      "Standardize tools and remove redundant systems so limited staff can focus on the core platforms that directly support growth. A simpler stack reduces training requirements for new hires and makes it easier to maintain operational continuity when team members are unavailable."⟩,
     ⟨"Adopt solutions that deliver quick, low-effort efficiency gains",
      "Choose modernization steps with clear cost savings and minimal implementation lift so the organization can reduce spend without straining its small IT and operations teams. Quick wins build internal confidence and create budget headroom for larger modernization investments down the road."⟩],
    "Smurfit Westrock achieved a 25% reduction in infrastructure costs through strategic consolidation of fragmented systems across distributed operations. Like Allbirds, they faced rising maintenance costs from a complex technology landscape that was absorbing resources needed for growth. Their approach of targeting the highest-cost platforms first and building momentum from early wins is directly applicable to a lean organization working with limited IT staff.",
    "Smurfit Westrock"⟩⟩]),
 ("Challenger", [
  ⟨⟨"Target", "Retail", "Enterprise", "BDM", "Challenger", "Improving workload performance", "Integration friction"⟩,
   ⟨"Target's retail infrastructure handles massive transaction volumes across POS, ecommerce, and supply chain systems that must perform consistently during peak demand periods. This assessment focuses on where improving workload performance and reducing integration friction across core retail platforms can strengthen customer experience and protect revenue.",
    [⟨"Performance gains from upgrading core retail transaction systems",
      "Modernizing the compute infrastructure behind Target's highest-volume POS, ecommerce, and inventory workloads improves responsiveness during peak shopping periods. Faster transaction processing reduces checkout abandonment rates and enables real-time inventory visibility that prevents the stockout and overstock conditions that directly impact revenue."⟩,
     ⟨"Faster throughput by eliminating integration bottlenecks",
      "Improving data flow between merchandising, inventory, and digital platforms enables more consistent performance for customer-facing processes. When pricing updates, promotions, and inventory changes propagate in near-real-time across all channels, the organization can execute omnichannel retail strategies without the delays that frustrate customers and erode margins."⟩],
    [⟨"Persistent slowdowns from fragmented system integrations",
      "If integration friction between POS, ecommerce, and supply chain systems remains unresolved, performance bottlenecks will continue to surface during high-traffic periods. These slowdowns directly affect revenue during critical shopping events and degrade the customer experience that Target has invested heavily in building across its omnichannel retail presence."⟩,
     ⟨"Competitors advance with more unified retail platforms",
      "Retailers who have already consolidated their commerce platforms can push promotions, adjust pricing, and fulfill orders faster than organizations still managing fragmented integrations. Each quarter of delay in improving system performance widens the gap in operational speed and customer responsiveness that defines competitive positioning in retail."⟩],
    [⟨"Prioritize performance upgrades for high-volume retail workloads",
      "Focus modernization on the transactional systems that power POS, ecommerce, and inventory management during peak demand periods. Benchmark current response times against Target's peak traffic volumes and set measurable performance targets that align with revenue-critical shopping events like back-to-school, holiday, and promotional campaigns."⟩,
     ⟨"Strengthen integration across core retail and supply chain platforms",
      "Improve data consistency and flow between store systems, digital platforms, and supply chain management to eliminate the performance delays that impact customer experience. Prioritize the integration points where data latency causes the most visible customer-facing issues, such as inventory availability and order fulfillment accuracy."⟩,
     ⟨"Adopt scalable infrastructure to support unified commerce operations",
      "Move toward flexible compute and storage environments that can scale dynamically with Target's seasonal demand patterns. Infrastructure that auto-scales during peak traffic prevents the performance degradation that occurs when fixed-capacity systems are pushed beyond their design limits during critical revenue periods."⟩],
    "KT Cloud's infrastructure modernization demonstrates how large-scale organizations achieve measurable performance improvements across high-volume transaction systems. Like Target, they needed to handle massive throughput demands while maintaining consistent responsiveness. Their approach to upgrading core compute and streamlining platform integrations parallels Target's need to improve POS and ecommerce performance while reducing retail supply chain friction.",
    "KT Cloud"⟩⟩,
  ⟨⟨"Caterpillar", "Manufacturing", "Enterprise", "BDM", "Challenger", "Improving workload performance", "Skills gap"⟩,
   ⟨"Caterpillar's manufacturing operations depend on complex OT and IT systems that support equipment monitoring, production analytics, and global supply chain coordination. This assessment identifies where improving workload performance and addressing skills gaps can strengthen operational reliability and competitive positioning across global manufacturing sites.",
    [⟨"Performance gains from modernizing critical industrial workloads",
      "Upgrading compute environments that support Caterpillar's equipment monitoring and production analytics improves reliability across global manufacturing operations. Faster data processing from plant-floor sensors and OT systems enables earlier detection of equipment issues, reducing unplanned downtime that costs millions in lost production capacity annually."⟩,
     ⟨"Fewer delays by reducing friction between OT and IT systems",
      "Improving integration across factory equipment, ERP, and analytics platforms enables more consistent performance and faster issue resolution for production teams. When OT data flows reliably into IT analytics systems, manufacturing managers can make decisions based on current production conditions rather than waiting for batch reports that may already be outdated."⟩],
    [⟨"Operational slowdowns if legacy OT connections remain unaddressed",
      "If outdated interfaces between plant-floor equipment and enterprise IT systems are not modernized, performance issues will continue to impact production output, equipment uptime, and downstream supply chain operations. These slowdowns compound across Caterpillar's global manufacturing footprint, where minutes of unplanned downtime on critical production lines translate directly to revenue loss."⟩,
     ⟨"Skills gaps limiting the impact of modernization investments",
      "Without enough talent experienced in both OT and IT systems, performance improvements may stall at individual sites rather than scaling across the enterprise. Manufacturing organizations that invest in infrastructure modernization without simultaneously building internal capabilities often see adoption bottlenecks that prevent the full return on their technology investments."⟩],
    [⟨"Prioritize modernization of core production monitoring systems",
      "Focus upgrades on the equipment monitoring, analytics, and plant-floor workloads that have the greatest impact on Caterpillar's production uptime and output quality. Start with the manufacturing sites that have the highest downtime costs, as these provide the clearest business case and fastest payback on infrastructure modernization investment."⟩,
     ⟨"Strengthen integration across OT and IT environments",
      "Standardize data platforms and improve the flow between factory equipment, ERP, and analytics tools to reduce the delays that undermine operational reliability. Prioritize the OT-IT integration points where data latency or format inconsistencies create the most significant production planning blind spots across manufacturing sites."⟩,
     ⟨"Invest in training programs that close critical OT-IT skills gaps",
      "Expand internal training programs and bring in specialized expertise so modernization work can scale across manufacturing sites and support integrated OT-IT operations. Partner with equipment vendors and technology providers to create role-specific certification paths that build the skills needed to maintain modernized infrastructure independently."⟩],
    "PQR's infrastructure modernization in an industrial environment demonstrates how manufacturing organizations can improve system performance while managing the skills challenges that come with OT-IT convergence. Their phased approach to upgrading production-critical systems while building internal capabilities mirrors the path Caterpillar needs to follow to scale performance improvements across a global manufacturing footprint without creating dependency on external consultants.",
    "PQR"⟩⟩]),
 ("Leader", [
  ⟨⟨"HCA Healthcare", "Healthcare", "Enterprise", "ITDM", "Leader", "Preparing for AI adoption", "Data governance and compliance"⟩,
   ⟨"HCA Healthcare's IT infrastructure is well-positioned for AI adoption, with modern compute environments and established data governance across EHR, imaging, and clinical systems. This assessment identifies where strengthening data foundations and expanding governance frameworks can accelerate the safe deployment of clinical AI at enterprise scale while maintaining HIPAA compliance.",
    [⟨"Strong infrastructure readiness for advanced clinical AI workloads",
      "HCA's modern, scalable compute environment gives IT teams the foundation to support clinical AI models requiring high-performance processing and reliable patient data access at enterprise scale. The existing infrastructure handles GPU-intensive diagnostic imaging AI and predictive analytics without the costly rearchitecture that organizations at earlier stages must undertake first."⟩,
     ⟨"Tighter governance accelerates HIPAA-compliant AI deployment",
      "With established data controls across EHR, PACS imaging, and operational systems, the organization can evaluate and deploy AI use cases confidently within strict HIPAA boundaries. This governance maturity means HCA can move from AI pilots to production deployment faster than competitors still building the data quality and audit infrastructure that regulators require."⟩],
    [⟨"Data governance gaps threaten AI accuracy and patient safety",
      "If interoperability or data quality issues persist across clinical and administrative systems, AI models may produce unreliable outputs that increase compliance risk. In healthcare, inaccurate AI-driven insights can affect patient care decisions, making data governance not just a technical requirement but a patient safety imperative that regulators scrutinize closely."⟩,
     ⟨"Regulatory complexity can slow enterprise-scale AI deployment",
      "Healthcare's regulatory environment requires rigorous validation, documentation, and ongoing monitoring for every AI system that touches patient data. This compliance overhead may extend timelines for operationalizing AI at scale, particularly when different clinical departments have varying data standards and governance practices that must be harmonized."⟩],
    [⟨"Strengthen data foundations for clinical AI across EHR systems",
      "Improve data quality, standardization, and interoperability across EHR, PACS imaging, and operational systems to ensure AI models receive consistent, accurate inputs. Prioritize the HL7 FHIR integration points that connect clinical data sources, as these determine whether AI tools can access the comprehensive patient records needed for reliable diagnostic and predictive outputs."⟩,
     ⟨"Expand governance frameworks for safe clinical AI deployment",
      "Enhance validation, documentation, and audit controls so HCA's IT teams can deploy AI tools that meet HIPAA and FDA requirements for clinical decision support. Build governance templates that can be replicated across departments and facilities, reducing the time and effort needed to bring each new AI use case through the regulatory approval process."⟩,
     ⟨"Scale high-performance infrastructure for GPU-intensive AI models",
      "Increase GPU compute and storage capacity to run demanding clinical AI models for diagnostic imaging, patient risk scoring, and operational optimization. Right-size infrastructure investments to the specific AI workloads that HCA is prioritizing, avoiding over-provisioning while ensuring enough capacity to support concurrent model training and inference across facilities."⟩],
    "PQR's healthcare infrastructure modernization demonstrates how large health systems build the data foundations and governance controls needed for compliant AI adoption at scale. Like HCA, they needed to ensure that clinical AI systems met strict HIPAA requirements while delivering reliable outputs across EHR and imaging systems. Their phased approach to strengthening data quality before scaling AI deployment directly parallels HCA's path to enterprise-wide clinical AI readiness.",
    "PQR"⟩⟩,
  ⟨⟨"JPMorgan Chase", "Financial Services", "Enterprise", "BDM", "Leader", "Improving workload performance", "Data governance and compliance"⟩,
   ⟨"JPMorgan Chase operates at the frontier of financial technology, where milliseconds of latency in trading systems and transaction processing directly translate to competitive advantage or lost revenue. This assessment identifies where optimizing workload performance and streamlining governance can strengthen market positioning while maintaining the regulatory compliance that protects the institution's reputation.",
    [⟨"Performance optimization drives measurable competitive trading advantages",
      "JPMorgan Chase can leverage optimized compute infrastructure to execute transactions faster and more reliably than competitors in latency-sensitive markets. In high-frequency trading environments, infrastructure performance improvements measured in microseconds can translate to millions in additional revenue capture, making compute optimization one of the highest-ROI investments available."⟩,
     ⟨"Strong governance enables compliant innovation at enterprise scale",
      "Mature data controls and automated audit capabilities allow the organization to deploy new trading algorithms and analytics systems while maintaining compliance with SEC, FINRA, and global regulatory requirements. This governance maturity means the institution can innovate faster than competitors who must build compliance infrastructure from scratch for each new system or product launch."⟩],
    [⟨"Compliance overhead may constrain trading performance gains",
      "If governance requirements add latency or complexity to critical trading and risk management systems, the institution may not fully realize performance benefits of infrastructure modernization. Maintaining the audit trail, data lineage, and regulatory reporting that regulators demand without introducing processing overhead that erodes competitive advantage remains an ongoing challenge."⟩,
     ⟨"Fintech competitors move faster with lighter regulatory burdens",
      "Newer financial technology firms with simpler regulatory obligations can iterate on performance improvements and deploy new capabilities more rapidly. While compliance protects JPMorgan Chase's market position, the operational overhead of maintaining it across thousands of systems creates a speed disadvantage that compounds with each new regulatory requirement."⟩],
    [⟨"Optimize infrastructure for latency-sensitive trading workloads",
      "Focus performance improvements on the compute and networking systems that directly impact execution speed in JPMorgan Chase's highest-revenue trading operations. Benchmark current latency against tier-one competitors and set measurable performance targets that translate directly to quantifiable revenue impact in high-frequency and algorithmic trading."⟩,
     ⟨"Streamline regulatory compliance without sacrificing audit controls",
      "Implement automated governance and real-time audit capabilities that maintain SEC, FINRA, and global regulatory compliance while reducing the manual processing overhead that adds latency to critical systems. Modernize compliance infrastructure so that regulatory requirements are met through efficient automation rather than performance-constraining manual processes."⟩,
     ⟨"Deploy AI for real-time risk assessment and fraud prevention",
      "Leverage optimized compute infrastructure to run advanced AI models that improve risk management and fraud detection accuracy without adding transaction processing latency. Position these AI capabilities as competitive differentiators that simultaneously strengthen compliance posture and improve the speed and accuracy of critical financial decisions."⟩],
    "PQR's approach to modernizing performance-critical infrastructure while maintaining strict regulatory compliance demonstrates the path large financial institutions must follow. Like JPMorgan Chase, they needed to improve system performance where every change requires regulatory validation. Their success in automating compliance controls while delivering measurable performance improvements provides a proven framework for balancing speed and governance.",
    "PQR"⟩⟩])
]

/-- The industry similarity groups used in `fallback_to_example`. -/
def fallback_industry_groups : List (List String) := [
  ["healthcare", "life sciences", "pharma"],
  ["financial services", "banking", "insurance", "fintech"],
  ["retail", "ecommerce", "consumer goods"],
  ["manufacturing", "industrial", "automotive", "aec"],
  ["technology", "software", "telecommunications", "tech"],
  ["energy", "utilities", "oil and gas"]]

/-- The similarity score of one example against the request
(exact industry = 3, industry-group match = 1, exact priority = 2,
exact challenge = 2). -/
def score_example (ex : Example) (industry priority challenge : String) :
    Int :=
  let profile := ex.profile
  let p_industry := pyLower profile.industry
  let industryScore : Int :=
    if p_industry = pyLower industry then 3
    else if fallback_industry_groups.any (fun group =>
        group.any (fun t => pyContains p_industry t)
          && group.any (fun t => pyContains (pyLower industry) t)) then 1
    else 0
  industryScore
    + (if pyLower profile.priority = pyLower priority then 2 else 0)
    + (if pyLower profile.challenge = pyLower challenge then 2 else 0)

/-- Placeholder used only for the (unreachable) empty-pool head. -/
def empty_example : Example :=
  ⟨⟨"", "", "", "", "", "", ""⟩, ⟨"", [], [], [], "", ""⟩⟩

/-- The best-scoring example (`best_score` starts at `-1`, strict `>` keeps
the earlier example on ties — pool order resolves ties). -/
def select_fallback_example (examples : List Example)
    (industry priority challenge : String) : Example :=
  (examples.foldl (fun acc ex =>
      let score := score_example ex industry priority challenge
      if acc.2 < score then (ex, score) else acc)
    (examples.headD empty_example, -1)).1

/-- `fallback_to_example`: pick the best-matching curated example for the
stage and swap the example's company name for the real one in the first
item of each section (and the summary / relevance texts). -/
def fallback_to_example (company_name stage industry priority challenge :
    String) : ExampleOutput :=
  let examples := ((FEW_SHOT_EXAMPLES_POOL.lookup stage).getD
    ((FEW_SHOT_EXAMPLES_POOL.lookup "Challenger").getD []))
  let best_example := select_fallback_example examples industry priority challenge
  let original_company := best_example.profile.company
  let sw := fun (text : String) => pyReplace text original_company company_name
  let output := best_example.output
  let output :=
    if output.executive_summary ≠ "" then
      {output with executive_summary := sw output.executive_summary}
    else output
  let output :=
    match output.advantages with
    | a :: rest => {output with advantages := ⟨sw a.headline, sw a.description⟩ :: rest}
    | [] => output
  let output :=
    match output.risks with
    | r :: rest => {output with risks := ⟨sw r.headline, sw r.description⟩ :: rest}
    | [] => output
  let output :=
    match output.recommendations with
    | r :: rest => {output with recommendations := ⟨r.title, sw r.description⟩ :: rest}
    | [] => output
  let output :=
    if output.case_study_relevance ≠ "" then
      {output with case_study_relevance := sw output.case_study_relevance}
    else output
  output

/-! ## Targeted retry and fallback (`_retry_failing_fields`) -/

/-- `f["field"].split("[")[0]`: the top-level section of a failure. -/
def section_of_failure (f : VFailure) : String :=
  (pySplitOnChar '[' f.field).headD ""

/-- The set of failing sections (a Python `set`; embedded as the
deduplicated list — only membership is consumed). -/
def failing_sections_of (failures : List VFailure) : List String :=
  dedupKeepFirst (failures.map section_of_failure)

/-- The tool payload of one retry response (missing keys are empty). -/
structure RetryData where
  executive_summary : String := ""
  advantages : List ERItem := []
  risks : List ERItem := []
  recommendations : List RecItem := []
  case_study_relevance : String := ""
deriving DecidableEq

/-- One model call inside the retry loop: a tool payload, a response with
no tool block (`continue`), or a raised exception (`break`). -/
inductive RetryOutcome where
  | success (d : RetryData)
  | noTool
  | apiError
deriving DecidableEq

/-- `result[section] = retry_data[section]` for one failing section, guarded
by `section in retry_data and retry_data[section]` (truthiness). -/
def merge_section (result : ERContent) (sect : String) (d : RetryData) :
    ERContent :=
  if sect = "executive_summary" then
    (if d.executive_summary ≠ "" then
      {result with executive_summary := d.executive_summary} else result)
  else if sect = "advantages" then
    (if ¬ d.advantages.isEmpty then
      {result with advantages := d.advantages} else result)
  else if sect = "risks" then
    (if ¬ d.risks.isEmpty then {result with risks := d.risks} else result)
  else if sect = "recommendations" then
    (if ¬ d.recommendations.isEmpty then
      {result with recommendations := d.recommendations} else result)
  else if sect = "case_study_relevance" then
    (if d.case_study_relevance ≠ "" then
      {result with case_study_relevance := d.case_study_relevance} else result)
  else result

/-- Merge the regenerated failing sections back into the result. -/
def merge_retry_data (result : ERContent) (sections : List String)
    (d : RetryData) : ERContent :=
  sections.foldl (fun r s => merge_section r s d) result

/-- `result[section] = fb[section]` for one failing section
(`if section in fb`, unconditional on truthiness). -/
def apply_fb_section (result : ERContent) (sect : String) (fb : ExampleOutput) :
    ERContent :=
  if sect = "executive_summary" then
    {result with executive_summary := fb.executive_summary}
  else if sect = "advantages" then {result with advantages := fb.advantages}
  else if sect = "risks" then {result with risks := fb.risks}
  else if sect = "recommendations" then
    {result with recommendations := fb.recommendations}
  else if sect = "case_study_relevance" then
    {result with case_study_relevance := fb.case_study_relevance}
  else result

/-- `_apply_fallback_fields`: replace every failing section with the
fallback example's content. -/
def apply_fallback_fields (result : ERContent) (failures : List VFailure)
    (company_name stage industry priority challenge : String) : ERContent :=
  let fb := fallback_to_example company_name stage industry priority challenge
  (failing_sections_of failures).foldl (fun r s => apply_fb_section r s fb) result

/-- The `for attempt in range(max_retries)` loop of `_retry_failing_fields`.
`oracle` supplies the model's response for each attempt index; the
re-validation inside the loop is the call
`validate_executive_review_content(result)` — with default (empty)
priority / challenge / industry. -/
def retry_loop (oracle : Nat → RetryOutcome) (failing_sections : List String)
    (company_name stage industry priority challenge : String) :
    Nat → Nat → ERContent → List VFailure → ERContent
  | 0, _, result, failures =>
    apply_fallback_fields result failures company_name stage industry priority
      challenge
  | remaining + 1, attempt, result, failures =>
    match oracle attempt with
    | .apiError =>
      apply_fallback_fields result failures company_name stage industry
        priority challenge
    | .noTool =>
      retry_loop oracle failing_sections company_name stage industry priority
        challenge remaining (attempt + 1) result failures
    | .success d =>
      if (validate_executive_review_content
          (merge_retry_data result failing_sections d) "" "" "").passed then
        merge_retry_data result failing_sections d
      else
        retry_loop oracle failing_sections company_name stage industry priority
          challenge remaining (attempt + 1)
          (merge_retry_data result failing_sections d)
          (validate_executive_review_content
            (merge_retry_data result failing_sections d) "" "" "").failures

/-- `_retry_failing_fields`: with no client (or no failures) fall back at
once; otherwise run at most `max_retries` model calls and fall back if they
are exhausted.  `segment` and `persona` only feed the prompt text. -/
def retry_failing_fields (hasClient : Bool) (oracle : Nat → RetryOutcome)
    (result : ERContent) (failures : List VFailure)
    (company_name stage industry segment persona priority challenge : String)
    (max_retries : Nat := 2) : ERContent :=
  if ¬ hasClient ∨ failures.isEmpty then
    apply_fallback_fields result failures company_name stage industry priority
      challenge
  else
    retry_loop oracle (failing_sections_of failures) company_name stage industry
      priority challenge max_retries 0 result failures

/-! ## Concrete data used by the theorems below -/

/-- Content whose single advantage passes every structural check but
mentions neither "reducing" nor "cost". -/
def c4content : ERContent :=
  { advantages := [⟨"Stronger performance through modern infrastructure",
      "Upgrading aging server platforms lets the organization handle heavier workloads with fewer delays and less manual effort. Teams gain headroom for new projects while daily operations become more predictable, and the refreshed foundation supports future growth without major rework in the years ahead."⟩] }

set_option maxRecDepth 1000000


/-- `P2 = P1` plus additional fields: each field of `P1` is either the same
in `P2` or absent in `P1`. -/
def ProfileExtends (p1 p2 : Profile) : Prop :=
  (p1.company_tags = p2.company_tags ∨ p1.company_tags = none)
  ∧ (p1.news_themes = p2.news_themes ∨ p1.news_themes = none)
  ∧ (p1.recent_news = p2.recent_news ∨ p1.recent_news = none)
  ∧ (p1.founded_year = p2.founded_year ∨ p1.founded_year = none)
  ∧ (p1.employee_count = p2.employee_count ∨ p1.employee_count = none)
  ∧ (p1.employee_growth_rate = p2.employee_growth_rate
      ∨ p1.employee_growth_rate = none)
  ∧ (p1.latest_funding_stage = p2.latest_funding_stage
      ∨ p1.latest_funding_stage = none)
  ∧ (p1.total_funding = p2.total_funding ∨ p1.total_funding = none)
  ∧ (p1.title = p2.title ∨ p1.title = none)
  ∧ (p1.seniority = p2.seniority ∨ p1.seniority = none)
  ∧ (p1.industry = p2.industry ∨ p1.industry = none)
  ∧ (p1.company_summary = p2.company_summary ∨ p1.company_summary = none)

instance (p1 p2 : Profile) : Decidable (ProfileExtends p1 p2) := by
  unfold ProfileExtends
  infer_instance


/-- Profile used by the C6 witness: three news articles and a title added
to the empty profile. -/
def p6b : Profile :=
  { title := some "CTO",
    recent_news := some [⟨"a", ""⟩, ⟨"b", ""⟩, ⟨"c", ""⟩] }


/-- Raw data whose hunter payload carries the `_mock` flag. -/
def rawC2mock : RawData :=
  [("hunter", [("_mock", Val.bool true), ("status", Val.str "valid"),
               ("score", Val.int 97), ("result", Val.str "deliverable")])]


/-- Raw data whose hunter payload is error-tagged. -/
def rawC2err : RawData := [("hunter", [("_error", Val.str "timeout")])]

/-- Raw data with a clean pdl payload carrying a skills value. -/
def rawC2skills : RawData := [("pdl", [("skills", Val.str "ml")])]


/-! ## `find?` / `firstMaxBy` lemmas and the resolve-field characterization -/

theorem insertDescBy_headZ (key : α → Nat) (x : α) (l : List α) :
    (insertDescBy key x l).head? =
      some (match l.head? with
            | none => x
            | some y => if key y ≤ key x then x else y) := by
  cases l with
  | nil => rfl
  | cons y ys =>
    by_cases h : key y ≤ key x <;> simp [insertDescBy, h]

theorem sortDescBy_head (key : α → Nat) (l : List α) :
    (sortDescBy key l).head? = firstMaxBy key l := by
  induction l with
  | nil => rfl
  | cons x xs ih =>
    simp only [sortDescBy, firstMaxBy, insertDescBy_headZ, ih]
    cases firstMaxBy key xs with
    | none => rfl
    | some m => by_cases h : key m ≤ key x <;> simp [h]

theorem firstMaxBy_eq_none (key : α → Nat) (l : List α) :
    firstMaxBy key l = none ↔ l = [] := by
  cases l with
  | nil => simp [firstMaxBy]
  | cons x xs =>
    simp only [firstMaxBy]
    cases firstMaxBy key xs with
    | none => simp
    | some m => by_cases h : key m ≤ key x <;> simp [h]

theorem firstMaxBy_mem (key : α → Nat) :
    ∀ (l : List α) (m : α), firstMaxBy key l = some m → m ∈ l := by
  intro l
  induction l with
  | nil => intro m h; simp [firstMaxBy] at h
  | cons x xs ih =>
    intro m h
    simp only [firstMaxBy] at h
    cases hx : firstMaxBy key xs with
    | none => rw [hx] at h; simp at h; simp [h]
    | some m' =>
      rw [hx] at h
      by_cases hk : key m' ≤ key x
      · simp [hk] at h; simp [h]
      · simp [hk] at h
        exact List.mem_cons_of_mem x (ih m (h ▸ hx))

theorem firstMaxBy_le (key : α → Nat) :
    ∀ (l : List α) (m : α), firstMaxBy key l = some m → ∀ b ∈ l, key b ≤ key m := by
  intro l
  induction l with
  | nil => intro m h; simp [firstMaxBy] at h
  | cons x xs ih =>
    intro m h b hb
    simp only [firstMaxBy] at h
    cases hx : firstMaxBy key xs with
    | none =>
      rw [hx] at h; simp at h
      have hxs : xs = [] := (firstMaxBy_eq_none key xs).mp hx
      subst hxs
      simp at hb
      subst hb; subst h; exact le_refl _
    | some m' =>
      rw [hx] at h
      rcases List.mem_cons.mp hb with hb | hb
      · subst hb
        by_cases hk : key m' ≤ key b
        · simp [hk] at h; subst h; exact le_refl _
        · simp [hk] at h; subst h; omega
      · have hbm' := ih m' hx b hb
        by_cases hk : key m' ≤ key x
        · simp [hk] at h; subst h; omega
        · simp [hk] at h; subst h; exact hbm'


theorem find?_congr_mem {α : Type} {p q : α → Bool} :
    ∀ l : List α, (∀ a ∈ l, p a = q a) → l.find? p = l.find? q := by
  intro l
  induction l with
  | nil => intro _; rfl
  | cons x xs ih =>
    intro h
    simp only [List.find?]
    rw [h x (List.mem_cons_self x xs)]
    cases hq : q x with
    | true => rfl
    | false => exact ih (fun a ha => h a (List.mem_cons_of_mem x ha))

theorem firstMaxBy_eq_findFirstMax {α : Type} (key : α → Nat) :
    ∀ l : List α,
      firstMaxBy key l = l.find? (fun a => l.all (fun b => key b ≤ key a)) := by
  intro l
  induction l with
  | nil => rfl
  | cons x xs ih =>
    simp only [firstMaxBy]
    cases hx : firstMaxBy key xs with
    | none =>
      have hxs : xs = [] := (firstMaxBy_eq_none key xs).mp hx
      subst hxs
      simp
    | some m =>
      have hmem := firstMaxBy_mem key xs m hx
      have hle := firstMaxBy_le key xs m hx
      by_cases hk : key m ≤ key x
      · change (if key m ≤ key x then some x else some m) = _
        rw [if_pos hk]
        have hall : ((x :: xs).all (fun b => key b ≤ key x)) = true := by
          simp only [List.all_eq_true, decide_eq_true_eq]
          intro b hb
          rcases List.mem_cons.mp hb with hb | hb
          · subst hb; exact le_refl _
          · exact le_trans (hle b hb) hk
        have hfind : List.find? (fun a => (x :: xs).all fun b => key b ≤ key a)
            (x :: xs) = some x := by
          simp only [List.find?]
          rw [hall]
        rw [hfind]
      · change (if key m ≤ key x then some x else some m) = _
        rw [if_neg hk]
        have hpx : ((x :: xs).all (fun b => key b ≤ key x)) = false := by
          apply Bool.eq_false_iff.mpr
          intro hall
          have := List.all_eq_true.mp hall m (List.mem_cons_of_mem x hmem)
          simp only [decide_eq_true_eq] at this
          omega
        have hfind : List.find? (fun a => (x :: xs).all fun b => key b ≤ key a)
            (x :: xs)
            = List.find? (fun a => (x :: xs).all fun b => key b ≤ key a) xs := by
          simp only [List.find?]
          rw [hpx]
        rw [hfind]
        have hpq : ∀ a ∈ xs,
            ((x :: xs).all (fun b => key b ≤ key a) : Bool)
              = xs.all (fun b => key b ≤ key a) := by
          intro a ha
          simp only [List.all_cons]
          cases hq : xs.all (fun b => key b ≤ key a) with
          | true =>
            have hma := List.all_eq_true.mp hq m hmem
            simp only [decide_eq_true_eq] at hma
            have hxa : key x ≤ key a := by omega
            simp [hxa, hq]
          | false => simp [hq]
        rw [find?_congr_mem xs hpq, ← ih, hx]

theorem resolve_field_eq_first_max (sources : List (String × String))
    (raw : RawData) :
    resolve_field sources raw
      = ((resolve_candidates sources raw).find?
          (fun c => (resolve_candidates sources raw).all (fun d => d.1 ≤ c.1))).map
          (fun c => c.2) := by
  unfold resolve_field
  by_cases h : (resolve_candidates sources raw).isEmpty
  · rw [if_pos h]
    have : resolve_candidates sources raw = [] := by
      cases hcs : resolve_candidates sources raw with
      | nil => rfl
      | cons c cs => rw [hcs] at h; simp [List.isEmpty] at h
    rw [this]
    rfl
  · rw [if_neg h]
    rw [sortDescBy_head, firstMaxBy_eq_findFirstMax]

/-- C10: `_resolve_field` resolves each field to the value of the first
candidate (in the static field-mapping order) among those of maximal trust
priority — the stable descending sort preserves the relative order of
equal-priority candidates; in particular, for `employee_count`,
`pdl_company` and `zoominfo` share weight 4 and the earlier-listed
`pdl_company` wins. -/
theorem C10_equal_priority_tie_break :
    (∀ (sources : List (String × String)) (raw : RawData),
      resolve_field sources raw
        = ((resolve_candidates sources raw).find?
            (fun c => (resolve_candidates sources raw).all
              (fun d => d.1 ≤ c.1))).map (fun c => c.2))
    ∧ sourcePriority "pdl_company" = sourcePriority "zoominfo"
    ∧ resolve_field ((field_mappings.lookup "employee_count").getD [])
        [("pdl_company", [("employee_count", Val.int 5000)]),
         ("zoominfo", [("employee_count", Val.int 120)])]
        = some (Val.int 5000) :=
  ⟨resolve_field_eq_first_max, rfl, rfl⟩

/-- C5 (code bug): `_estimate_employee_count_from_range` maps the closed
range `"1001-5000"` to the midpoint `3000` and a bare integer to itself,
but the open-ended `"10001+"` yields `int(10001 * 1.5) = 15001`, not the
`15000` stated by the function's own docstring and the spec. -/
theorem C5_employee_count_estimate_bug :
    estimate_employee_count_from_range "1001-5000" = some 3000
    ∧ estimate_employee_count_from_range "10001+" = some 15001
    ∧ estimate_employee_count_from_range "10001+" ≠ some 15000
    ∧ estimate_employee_count_from_range "250" = some 250 := by
  refine ⟨rfl, rfl, ?_, rfl⟩
  decide

/-- C7: industry canonicalization is idempotent on every canonical bucket
produced by the normalization table. -/
theorem C7_industry_canonicalization_idempotent :
    (["technology", "financial_services", "healthcare", "manufacturing",
      "retail", "energy", "telecommunications", "media", "government",
      "education", "professional_services"].all
      (fun b => normalize_industry b == some b)) = true := by
  decide

/-! ## Validator lemmas (C4, C9) -/

theorem isEmpty_append_left {α : Type} (l₁ l₂ : List α) :
    l₂.isEmpty = false → (l₁ ++ l₂).isEmpty = false := by
  intro h
  cases l₁ with
  | nil => simpa using h
  | cons => rfl

theorem isEmpty_append_of_left {α : Type} (l₁ l₂ : List α) :
    l₁.isEmpty = false → (l₁ ++ l₂).isEmpty = false := by
  intro h
  cases l₁ with
  | nil => simp [List.isEmpty] at h
  | cons => rfl

theorem personalization_failures_empty_args (content : ERContent) :
    personalization_failures content "" "" "" = [] := by
  unfold personalization_failures personalization_adv_failures
    personalization_risk_failures personalization_cs_failures
  simp

/-- C4 (amended): the initial full validation reports exactly the
re-validation's failures (the structural and company-name checks) followed
by the personalization failures; the retry loop's re-validation is the
call with empty priority / challenge / industry, so it skips the blocking
personalization checks. -/
theorem C4_initial_validation_extends_revalidation :
    ∀ (content : ERContent) (priority challenge industry : String),
      (validate_executive_review_content content priority challenge industry).failures
        = (validate_executive_review_content content "" "" "").failures
          ++ personalization_failures content priority challenge industry := by
  intro c p ch ind
  unfold validate_executive_review_content
  rw [personalization_failures_empty_args]
  simp

/-- C4 (counterexample): the full validation and the re-validation do not
apply the same set of checks — on `c4content` the initial call (with the
personalization parameters) fails while the retry loop's re-validation
call (empty parameters) passes. -/
theorem C4_counterexample :
    (validate_executive_review_content c4content "Reducing cost"
      "Legacy systems" "Healthcare").passed = false
    ∧ (validate_executive_review_content c4content "" "" "").passed = true := by
  constructor
  · decide
  · decide

/-- C9: a non-empty priority phrase with no extractable keywords (every
token a stop-word or of length ≤ 2, e.g. "AI") makes the blocking
first-advantage check fail for any content with at least one advantage, so
such content never validates; by contrast the case-study-relevance check
contributes no failure when its combined industry-plus-challenge keyword
list is empty. -/
theorem C9_empty_keyword_asymmetry :
    (∀ (content : ERContent) (priority challenge industry : String),
      priority ≠ "" → extract_keywords priority = [] →
      content.advantages ≠ [] →
      (validate_executive_review_content content priority challenge
        industry).passed = false)
    ∧ (∀ (content : ERContent) (challenge industry : String),
      extract_keywords industry ++ extract_keywords challenge = [] →
      personalization_cs_failures content challenge industry = []) := by
  constructor
  · intro c p ch ind hp hkw hadv
    obtain ⟨cn, es, advs, rks, recs, csr⟩ := c
    cases advs with
    | nil => exact absurd rfl hadv
    | cons a t =>
      show (structural_failures _ ++ company_name_failures _
        ++ personalization_failures _ p ch ind).isEmpty = false
      apply isEmpty_append_left
      unfold personalization_failures
      apply isEmpty_append_of_left
      apply isEmpty_append_of_left
      simp [personalization_adv_failures, hkw, hp]
  · intro c ch ind h
    have hind : extract_keywords ind = [] := (List.append_eq_nil.mp h).1
    have hch : extract_keywords ch = [] := (List.append_eq_nil.mp h).2
    unfold personalization_cs_failures
    by_cases h1 : (ind ≠ "" ∨ ch ≠ "")
    · rw [if_pos h1]
      by_cases h2 : c.case_study_relevance ≠ ""
      · rw [if_pos h2]
        simp [hind, hch]
      · rw [if_neg h2]
    · rw [if_neg h1]

/-- C9 witness: the priority phrase "AI" (single token of length 2) has no
keywords, and a concrete content structure with one advantage fails the
full validation, while the empty-keyword case-study check is silent. -/
theorem C9_empty_keyword_asymmetry_witness :
    ("AI" ≠ "" ∧ extract_keywords "AI" = [] ∧ c4content.advantages ≠ []
      ∧ (validate_executive_review_content c4content "AI" "" "").passed = false)
    ∧ (extract_keywords "" ++ extract_keywords "AI" = []
      ∧ personalization_cs_failures c4content "AI" "" = []) :=
  ⟨⟨by decide, by decide, by decide,
    C9_empty_keyword_asymmetry.1 c4content "AI" "" "" (by decide) (by decide)
      (by decide)⟩,
   ⟨by decide,
    C9_empty_keyword_asymmetry.2 c4content "AI" "" (by decide)⟩⟩

/-! ## Context-inference theorems (C3, C6) -/

theorem infer_it_environment_mem (p : Profile) :
    infer_it_environment p ∈ ["traditional", "modernizing", "modern"] := by
  simp only [infer_it_environment]
  repeat' split
  all_goals decide

theorem infer_business_priority_mem (p : Profile) :
    infer_business_priority p
      ∈ ["reducing_cost", "improving_performance", "preparing_ai"] := by
  simp only [infer_business_priority]
  repeat' split
  all_goals decide

theorem infer_challenge_mem (p : Profile) :
    infer_challenge p
      ∈ ["legacy_systems", "integration_friction", "resource_constraints",
         "skills_gap", "data_governance"] := by
  simp only [infer_challenge]
  repeat' split
  all_goals decide

theorem infer_urgency_level_mem (p : Profile) :
    infer_urgency_level p ∈ ["low", "medium", "high"] := by
  simp only [infer_urgency_level]
  repeat' split
  all_goals decide

/-- C3 (amended): for every profile and every override whose `strip()` is
non-empty, the four inferred attributes take values from their fixed
enumerations and the journey stage equals the override verbatim — the
override wins over inference but is not validated against the journey-stage
enumeration. -/
theorem C3_enumerations_and_override :
    ∀ (p : Profile) (g : String), pyStrip g ≠ "" →
      (infer_context p (some g)).it_environment
          ∈ ["traditional", "modernizing", "modern"]
      ∧ (infer_context p (some g)).business_priority
          ∈ ["reducing_cost", "improving_performance", "preparing_ai"]
      ∧ (infer_context p (some g)).primary_challenge
          ∈ ["legacy_systems", "integration_friction", "resource_constraints",
             "skills_gap", "data_governance"]
      ∧ (infer_context p (some g)).urgency_level ∈ ["low", "medium", "high"]
      ∧ (infer_context p (some g)).journey_stage = g := by
  intro p g hg
  refine ⟨infer_it_environment_mem p, infer_business_priority_mem p,
    infer_challenge_mem p, infer_urgency_level_mem p, ?_⟩
  show (if pyStrip g ≠ "" then g else infer_journey_stage p) = g
  rw [if_pos hg]

/-- C3 (counterexample): a non-empty override outside the journey-stage
enumeration is returned verbatim, so the returned journey stage is not in
the enumeration. -/
theorem C3_counterexample :
    (infer_context ({} : Profile) (some "purchase")).journey_stage = "purchase"
    ∧ "purchase" ∉ ["awareness", "consideration", "decision", "implementation"] := by
  constructor
  · decide
  · decide

/-- C3 witness: the amended statement at a concrete profile and override. -/
theorem C3_enumerations_and_override_witness :
    pyStrip "decision" ≠ ""
    ∧ (infer_context ({} : Profile) (some "decision")).journey_stage = "decision"
    ∧ (infer_context ({} : Profile) (some "decision")).urgency_level
        ∈ ["low", "medium", "high"] :=
  ⟨by decide,
   (C3_enumerations_and_override {} "decision" (by decide)).2.2.2.2,
   (C3_enumerations_and_override {} "decision" (by decide)).2.2.2.1⟩

theorem optTruthyList_mono {α : Type} {o1 o2 : Option (List α)}
    (h : o1 = o2 ∨ o1 = none) : optTruthyList o1 = true → optTruthyList o2 = true := by
  rcases h with h | h
  · rw [h]; exact id
  · rw [h]; intro ht; simp [optTruthyList] at ht

theorem optTruthyStr_mono {o1 o2 : Option String}
    (h : o1 = o2 ∨ o1 = none) : optTruthyStr o1 = true → optTruthyStr o2 = true := by
  rcases h with h | h
  · rw [h]; exact id
  · rw [h]; intro ht; simp [optTruthyStr] at ht

theorem optTruthyInt_mono {o1 o2 : Option Int}
    (h : o1 = o2 ∨ o1 = none) : optTruthyInt o1 = true → optTruthyInt o2 = true := by
  rcases h with h | h
  · rw [h]; exact id
  · rw [h]; intro ht; simp [optTruthyInt] at ht

theorem optTruthyRat_mono {o1 o2 : Option ℚ}
    (h : o1 = o2 ∨ o1 = none) : optTruthyRat o1 = true → optTruthyRat o2 = true := by
  rcases h with h | h
  · rw [h]; exact id
  · rw [h]; intro ht; simp [optTruthyRat] at ht

theorem ite_one_zero_mono {b1 b2 : Bool} (h : b1 = true → b2 = true) :
    (if b1 then (1 : ℕ) else 0) ≤ if b2 then 1 else 0 := by
  cases b1 <;> cases b2 <;> simp_all

theorem signals_present_mono {p1 p2 : Profile} (h : ProfileExtends p1 p2) :
    signals_present p1 ≤ signals_present p2 := by
  obtain ⟨h1, h2, h3, h4, h5, h6, h7, _h8, h9, h10, h11, h12⟩ := h
  unfold signals_present
  refine Nat.add_le_add (Nat.add_le_add (Nat.add_le_add (Nat.add_le_add
    (Nat.add_le_add (Nat.add_le_add (Nat.add_le_add (Nat.add_le_add
      (Nat.add_le_add (Nat.add_le_add ?_ ?_) ?_) ?_) ?_) ?_) ?_) ?_) ?_) ?_) ?_
  · exact ite_one_zero_mono (optTruthyList_mono h1)
  · exact ite_one_zero_mono (optTruthyList_mono h2)
  · exact ite_one_zero_mono (optTruthyList_mono h3)
  · exact ite_one_zero_mono (optTruthyInt_mono h4)
  · exact ite_one_zero_mono (optTruthyInt_mono h5)
  · exact ite_one_zero_mono (optTruthyRat_mono h6)
  · exact ite_one_zero_mono (optTruthyStr_mono h7)
  · exact ite_one_zero_mono (optTruthyStr_mono h9)
  · exact ite_one_zero_mono (optTruthyStr_mono h10)
  · exact ite_one_zero_mono (optTruthyStr_mono h11)
  · exact ite_one_zero_mono (optTruthyStr_mono h12)

theorem news_bonus_nonneg (p : Profile) : 0 ≤ news_bonus p := by
  unfold news_bonus
  split <;> norm_num

theorem news_bonus_mono {p1 p2 : Profile}
    (h : p1.recent_news = p2.recent_news ∨ p1.recent_news = none) :
    news_bonus p1 ≤ news_bonus p2 := by
  rcases h with h | h
  · unfold news_bonus
    rw [h]
  · have hz : news_bonus p1 = 0 := by
      unfold news_bonus
      rw [h]
      simp
    rw [hz]
    exact news_bonus_nonneg p2

/-- C6: the confidence score equals
`min(1, 0.2 + (signals_present / 11) * 0.7 + bonus)`, and it is monotone:
extending a profile with additional fields never lowers it. -/
theorem C6_confidence_formula_and_monotonicity :
    (∀ p : Profile, calculate_confidence p
        = min 1 ((1/5 : ℚ) + ((signals_present p : ℚ) / 11) * (7/10)
            + news_bonus p))
    ∧ (∀ p1 p2 : Profile, ProfileExtends p1 p2 →
        calculate_confidence p1 ≤ calculate_confidence p2) := by
  constructor
  · intro p; rfl
  · intro p1 p2 h
    have hs : (signals_present p1 : ℚ) ≤ (signals_present p2 : ℚ) := by
      exact_mod_cast signals_present_mono h
    have hb : news_bonus p1 ≤ news_bonus p2 := news_bonus_mono h.2.2.1
    show min 1 ((1/5 : ℚ) + ((signals_present p1 : ℚ) / 11) * (7/10)
        + news_bonus p1)
      ≤ min 1 ((1/5 : ℚ) + ((signals_present p2 : ℚ) / 11) * (7/10)
        + news_bonus p2)
    apply min_le_min (le_refl 1)
    linarith

/-- C6 witness: the monotonicity instance on a concrete extension pair. -/
theorem C6_confidence_witness :
    ProfileExtends {} p6b
    ∧ calculate_confidence {} ≤ calculate_confidence p6b :=
  ⟨by decide,
   C6_confidence_formula_and_monotonicity.2 {} p6b (by decide)⟩

/-! ## News-analyzer theorems (C8) -/

theorem round2_min_one_le (q : ℚ) : round2 (min 1 q) ≤ 1 := by
  unfold round2
  have h2 : (min 1 q) * 100 ≤ 100 := by
    have := min_le_left (1 : ℚ) q
    nlinarith
  have h3 : round ((min 1 q) * 100) ≤ 100 := by
    rw [round_eq]
    have hle : (min 1 q) * 100 + 1/2 ≤ (100 : ℚ) + 1/2 := by linarith
    calc ⌊(min 1 q) * 100 + 1/2⌋ ≤ ⌊(100 : ℚ) + 1/2⌋ := Int.floor_le_floor hle
    _ = 100 := by norm_num
  have : ((round ((min 1 q) * 100) : ℤ) : ℚ) ≤ 100 := by exact_mod_cast h3
  linarith

/-- C8 (amended): the stage is assigned by hit counts with precedence
`deployed` over `piloting` over `exploring` over `none` — but a single
deployed hit (not only `≥ 2`) already yields `deployed` (confidence
`0.5 + 0.1·d`); the confidence in every branch is the stated hit-scaled
formula capped at 1, and with no hits the stage is `none` with
confidence 0. -/
theorem C8_stage_precedence :
    ∀ articles : List Article, articles ≠ [] →
      (count_keyword_hits (get_article_text articles) AI_DEPLOYED_KEYWORDS ≥ 2 →
        (detect_ai_readiness_signals articles).stage = "deployed"
        ∧ (detect_ai_readiness_signals articles).confidence
          = round2 (min 1 (1/2
              + (count_keyword_hits (get_article_text articles)
                  AI_DEPLOYED_KEYWORDS : ℚ) * (3/20))))
      ∧ (count_keyword_hits (get_article_text articles) AI_DEPLOYED_KEYWORDS = 1 →
        (detect_ai_readiness_signals articles).stage = "deployed"
        ∧ (detect_ai_readiness_signals articles).confidence
          = round2 (min 1 (1/2
              + (count_keyword_hits (get_article_text articles)
                  AI_DEPLOYED_KEYWORDS : ℚ) * (1/10))))
      ∧ (count_keyword_hits (get_article_text articles) AI_DEPLOYED_KEYWORDS = 0 →
        count_keyword_hits (get_article_text articles) AI_PILOTING_KEYWORDS ≥ 1 →
        (detect_ai_readiness_signals articles).stage = "piloting"
        ∧ (detect_ai_readiness_signals articles).confidence
          = round2 (min 1 (3/10
              + (count_keyword_hits (get_article_text articles)
                  AI_PILOTING_KEYWORDS : ℚ) * (3/20))))
      ∧ (count_keyword_hits (get_article_text articles) AI_DEPLOYED_KEYWORDS = 0 →
        count_keyword_hits (get_article_text articles) AI_PILOTING_KEYWORDS = 0 →
        count_keyword_hits (get_article_text articles) AI_EXPLORING_KEYWORDS ≥ 1 →
        (detect_ai_readiness_signals articles).stage = "exploring"
        ∧ (detect_ai_readiness_signals articles).confidence
          = round2 (min 1 (1/5
              + (count_keyword_hits (get_article_text articles)
                  AI_EXPLORING_KEYWORDS : ℚ) * (1/10))))
      ∧ (count_keyword_hits (get_article_text articles) AI_DEPLOYED_KEYWORDS = 0 →
        count_keyword_hits (get_article_text articles) AI_PILOTING_KEYWORDS = 0 →
        count_keyword_hits (get_article_text articles) AI_EXPLORING_KEYWORDS = 0 →
        (detect_ai_readiness_signals articles).stage = "none"
        ∧ (detect_ai_readiness_signals articles).confidence = 0)
      ∧ (detect_ai_readiness_signals articles).confidence ≤ 1 := by
  intro articles h
  have hne : articles.isEmpty = false := by
    cases articles with
    | nil => exact absurd rfl h
    | cons a t => rfl
  simp only [detect_ai_readiness_signals, hne, Bool.false_eq_true, if_false]
  split_ifs with hd2 hd1 hp1 he1
  · refine ⟨fun _ => ⟨rfl, by rw [← min_assoc, min_self]⟩,
      fun h1 => absurd h1 (by omega), fun h0 => absurd h0 (by omega),
      fun h0 => absurd h0 (by omega), fun h0 => absurd h0 (by omega), ?_⟩
    rw [← min_assoc, min_self]
    exact round2_min_one_le _
  · refine ⟨fun hc => absurd hc (by omega), fun _ => ⟨rfl, rfl⟩, fun h0 => absurd h0 (by omega),
      fun h0 => absurd h0 (by omega), fun h0 => absurd h0 (by omega), round2_min_one_le _⟩
  · refine ⟨fun hc => absurd hc (by omega), fun hc => absurd hc (by omega),
      fun _ _ => ⟨rfl, rfl⟩, fun _ hp => absurd hp (by omega), fun _ hp => absurd hp (by omega),
      round2_min_one_le _⟩
  · refine ⟨fun hc => absurd hc (by omega), fun hc => absurd hc (by omega),
      fun _ hp => absurd hp (by omega), fun _ _ _ => ⟨rfl, rfl⟩,
      fun _ _ he => absurd he (by omega), round2_min_one_le _⟩
  · have hzero : round2 (min 1 (0 : ℚ)) = 0 := by
      rw [min_eq_right (by norm_num : (0:ℚ) ≤ 1)]
      unfold round2
      norm_num
    refine ⟨fun hc => absurd hc (by omega), fun hc => absurd hc (by omega),
      fun _ hp => absurd hp (by omega), fun _ _ he => absurd he (by omega),
      fun _ _ _ => ⟨rfl, hzero⟩, by rw [hzero]; norm_num⟩

/-- C8 (counterexample): one deployed hit plus one piloting hit yields
stage `deployed` — a single deployed hit already takes precedence over
piloting, contradicting the claim's `≥ 2` threshold reading. -/
theorem C8_counterexample :
    count_keyword_hits (get_article_text [⟨"deployed", "pilot"⟩])
        AI_DEPLOYED_KEYWORDS = 1
    ∧ count_keyword_hits (get_article_text [⟨"deployed", "pilot"⟩])
        AI_PILOTING_KEYWORDS = 1
    ∧ (detect_ai_readiness_signals [⟨"deployed", "pilot"⟩]).stage = "deployed"
    ∧ (detect_ai_readiness_signals [⟨"deployed", "pilot"⟩]).stage ≠ "piloting" := by
  decide

/-- C8 witness: the piloting branch of the amended statement at a concrete
article list. -/
theorem C8_stage_precedence_witness :
    ([(⟨"pilot", ""⟩ : Article)] ≠ [])
    ∧ (detect_ai_readiness_signals [⟨"pilot", ""⟩]).stage = "piloting" :=
  ⟨by decide,
   ((C8_stage_precedence [⟨"pilot", ""⟩] (by decide)).2.2.1 (by decide)
     (by decide)).1⟩

/-! ## Guardrail retry-loop theorems (C1) -/

theorem retry_loop_oracle_congr (o1 o2 : Nat → RetryOutcome)
    (fs : List String) (cn st ind pr ch : String) :
    ∀ (remaining attempt : Nat) (result : ERContent) (failures : List VFailure),
      (∀ k, attempt ≤ k → k < attempt + remaining → o1 k = o2 k) →
      retry_loop o1 fs cn st ind pr ch remaining attempt result failures
        = retry_loop o2 fs cn st ind pr ch remaining attempt result failures := by
  intro remaining
  induction remaining with
  | zero => intro attempt result failures _; rfl
  | succ n ih =>
    intro attempt result failures h
    have hat : o1 attempt = o2 attempt := h attempt (le_refl _) (by omega)
    unfold retry_loop
    rw [hat]
    cases o2 attempt with
    | apiError => rfl
    | noTool =>
      exact ih (attempt + 1) result failures
        (fun k hk1 hk2 => h k (by omega) (by omega))
    | success d =>
      change (if (validate_executive_review_content
            (merge_retry_data result fs d) "" "" "").passed = true then
          merge_retry_data result fs d
        else
          retry_loop o1 fs cn st ind pr ch n (attempt + 1)
            (merge_retry_data result fs d)
            (validate_executive_review_content
              (merge_retry_data result fs d) "" "" "").failures)
        = (if (validate_executive_review_content
            (merge_retry_data result fs d) "" "" "").passed = true then
          merge_retry_data result fs d
        else
          retry_loop o2 fs cn st ind pr ch n (attempt + 1)
            (merge_retry_data result fs d)
            (validate_executive_review_content
              (merge_retry_data result fs d) "" "" "").failures)
      split
      · rfl
      · exact ih (attempt + 1) _ _ (fun k hk1 hk2 => h k (by omega) (by omega))

theorem retry_loop_terminal (o : Nat → RetryOutcome) (fs : List String)
    (cn st ind pr ch : String) :
    ∀ (remaining attempt : Nat) (result : ERContent) (failures : List VFailure),
      (∃ merged, retry_loop o fs cn st ind pr ch remaining attempt result failures
          = merged
        ∧ (validate_executive_review_content merged "" "" "").passed = true)
      ∨ (∃ r f, retry_loop o fs cn st ind pr ch remaining attempt result failures
          = apply_fallback_fields r f cn st ind pr ch) := by
  intro remaining
  induction remaining with
  | zero =>
    intro attempt result failures
    exact Or.inr ⟨result, failures, rfl⟩
  | succ n ih =>
    intro attempt result failures
    cases ho : o attempt with
    | apiError =>
      refine Or.inr ⟨result, failures, ?_⟩
      conv_lhs => rw [retry_loop]
      rw [ho]
    | noTool =>
      have hch : retry_loop o fs cn st ind pr ch (n + 1) attempt result failures
          = retry_loop o fs cn st ind pr ch n (attempt + 1) result failures := by
        conv_lhs => rw [retry_loop]
        rw [ho]
      rw [hch]
      exact ih (attempt + 1) result failures
    | success d =>
      have hch : retry_loop o fs cn st ind pr ch (n + 1) attempt result failures
          = (if (validate_executive_review_content
              (merge_retry_data result fs d) "" "" "").passed = true then
            merge_retry_data result fs d
          else
            retry_loop o fs cn st ind pr ch n (attempt + 1)
              (merge_retry_data result fs d)
              (validate_executive_review_content
                (merge_retry_data result fs d) "" "" "").failures) := by
        conv_lhs => rw [retry_loop]
        rw [ho]
      rw [hch]
      by_cases hp : (validate_executive_review_content
          (merge_retry_data result fs d) "" "" "").passed = true
      · rw [if_pos hp]
        exact Or.inl ⟨merge_retry_data result fs d, rfl, hp⟩
      · rw [if_neg hp]
        exact ih (attempt + 1) _ _

/-- C1 (amended): for any content, failure set and model behaviour, the
retry-then-fallback loop consults the model for at most the default
maximum of 2 attempts (its result depends only on the first two responses)
and always returns a content structure — either one that passed the loop's
re-validation or one produced by the deterministic fallback substitution;
there is no fail-the-request outcome.  (The returned structure need not
pass the structural checks: see the counterexample, where the company-name
swap injects a banned character.) -/
theorem C1_retry_bounded_and_always_returns :
    (∀ (hasClient : Bool) (o1 o2 : Nat → RetryOutcome) (result : ERContent)
        (failures : List VFailure) (cn st ind seg per pr ch : String),
      (∀ k, k < 2 → o1 k = o2 k) →
      retry_failing_fields hasClient o1 result failures cn st ind seg per pr ch 2
        = retry_failing_fields hasClient o2 result failures cn st ind seg per pr ch 2)
    ∧ (∀ (hasClient : Bool) (o : Nat → RetryOutcome) (result : ERContent)
        (failures : List VFailure) (cn st ind seg per pr ch : String),
      (∃ merged,
        retry_failing_fields hasClient o result failures cn st ind seg per pr ch 2
            = merged
          ∧ (validate_executive_review_content merged "" "" "").passed = true)
      ∨ (∃ r f,
        retry_failing_fields hasClient o result failures cn st ind seg per pr ch 2
          = apply_fallback_fields r f cn st ind pr ch)) := by
  constructor
  · intro hasClient o1 o2 result failures cn st ind seg per pr ch h
    unfold retry_failing_fields
    split
    · rfl
    · exact retry_loop_oracle_congr o1 o2 _ cn st ind pr ch 2 0 result failures
        (fun k hk1 hk2 => h k (by omega))
  · intro hasClient o result failures cn st ind seg per pr ch
    unfold retry_failing_fields
    split
    · exact Or.inr ⟨result, failures, rfl⟩
    · exact retry_loop_terminal o _ cn st ind pr ch 2 0 result failures

/-- C1 witness: the oracle-dependence bound applied to two oracles that
agree on the first two attempts. -/
theorem C1_retry_bounded_witness :
    (∀ k, k < 2 → (fun _ => RetryOutcome.noTool) k
        = (fun j => if j < 2 then RetryOutcome.noTool else RetryOutcome.apiError) k)
    ∧ retry_failing_fields true (fun _ => RetryOutcome.noTool) {}
        [⟨"risks[0]", "missing challenge keyword", ""⟩]
        "Acme" "Observer" "Technology" "Enterprise" "ITDM" "Reducing cost"
        "Legacy systems" 2
      = retry_failing_fields true
          (fun j => if j < 2 then RetryOutcome.noTool else RetryOutcome.apiError)
          {} [⟨"risks[0]", "missing challenge keyword", ""⟩]
          "Acme" "Observer" "Technology" "Enterprise" "ITDM" "Reducing cost"
          "Legacy systems" 2 :=
  ⟨fun k hk => by
      show RetryOutcome.noTool
        = if k < 2 then RetryOutcome.noTool else RetryOutcome.apiError
      rw [if_pos hk],
   C1_retry_bounded_and_always_returns.1 true _ _ {}
     [⟨"risks[0]", "missing challenge keyword", ""⟩]
     "Acme" "Observer" "Technology" "Enterprise" "ITDM" "Reducing cost"
     "Legacy systems" (fun k hk => by
      show RetryOutcome.noTool
        = if k < 2 then RetryOutcome.noTool else RetryOutcome.apiError
      rw [if_pos hk])⟩

/-- C1 (counterexample): with no client the loop immediately substitutes
the fallback example for the failing executive summary, swapping the
example's company name for "Yahoo!"; the swapped text contains the banned
exclamation mark, so the returned structure fails the non-personalization
structural checks. -/
theorem C1_counterexample :
    (validate_executive_review_content
      (retry_failing_fields false (fun _ => RetryOutcome.apiError)
        {company_name := "Yahoo!"}
        [⟨"executive_summary", "Below min chars (0/200)", ""⟩]
        "Yahoo!" "Observer" "Technology" "Enterprise" "ITDM" "Reducing cost"
        "Legacy systems" 2) "" "" "").passed = false := by
  decide

/-! ## Dict lemmas and origin theorems (C2) -/

theorem dictGet_set_self (d : PyDict) (k : String) (v : Val) :
    dictGet (dictSet d k v) k = some v := by
  simp [dictGet, dictSet, List.lookup]

theorem dictGet_set_ne (d : PyDict) (k k' : String) (v : Val) (h : k' ≠ k) :
    dictGet (dictSet d k v) k' = dictGet d k' := by
  simp only [dictGet, dictSet, List.lookup]
  rw [show (k' == k) = false from beq_eq_false_iff_ne.mpr h]

theorem dictGet_set_isSome (d : PyDict) (k k' : String) (v : Val) :
    (dictGet d k).isSome = true → (dictGet (dictSet d k' v) k).isSome = true := by
  intro h
  by_cases he : k = k'
  · subst he
    rw [dictGet_set_self]
    rfl
  · rw [dictGet_set_ne d k' k v he]
    exact h

theorem resolve_candidates_origin (sources : List (String × String))
    (raw : RawData) (c : Nat × Val)
    (hc : c ∈ resolve_candidates sources raw) :
    ∃ sf ∈ sources,
      dictTruthy (rawGet raw sf.1) = true
      ∧ flagTruthy (rawGet raw sf.1) "_error" = false
      ∧ flagTruthy (rawGet raw sf.1) "_mock" = false
      ∧ dictGet (rawGet raw sf.1) sf.2 = some c.2
      ∧ c.2.isNone = false ∧ c.2.isEmptyString = false := by
  unfold resolve_candidates at hc
  rw [List.mem_filterMap] at hc
  obtain ⟨sf, hsf, hf⟩ := hc
  refine ⟨sf, hsf, ?_⟩
  by_cases h1 : dictTruthy (rawGet raw sf.1) = true
      ∧ ¬ flagTruthy (rawGet raw sf.1) "_error" = true
      ∧ ¬ flagTruthy (rawGet raw sf.1) "_mock" = true
  · rw [if_pos h1] at hf
    cases hget : dictGet (rawGet raw sf.1) sf.2 with
    | none =>
      rw [hget] at hf
      exact absurd hf (by simp)
    | some v =>
      rw [hget] at hf
      change (if ¬ v.isNone = true ∧ ¬ v.isEmptyString = true
          then some (sourcePriority sf.1, v) else none) = some c at hf
      by_cases h2 : ¬ v.isNone = true ∧ ¬ v.isEmptyString = true
      · rw [if_pos h2] at hf
        obtain rfl : (sourcePriority sf.1, v) = c := Option.some.inj hf
        refine ⟨h1.1, ?_, ?_, rfl, ?_, ?_⟩
        · have := h1.2.1
          simp only [Bool.not_eq_true] at this
          exact this
        · have := h1.2.2
          simp only [Bool.not_eq_true] at this
          exact this
        · have := h2.1
          simp only [Bool.not_eq_true] at this
          exact this
        · have := h2.2
          simp only [Bool.not_eq_true] at this
          exact this
      · rw [if_neg h2] at hf
        exact absurd hf (by simp)
  · rw [if_neg h1] at hf
    exact absurd hf (by simp)

theorem fold_mappings_get_notin (raw : RawData) :
    ∀ (ms : List (String × List (String × String))) (acc : PyDict) (k : String),
      (∀ fm ∈ ms, fm.1 ≠ k) →
      dictGet (ms.foldl (fun acc fm =>
        match resolve_field fm.2 raw with
        | some v => dictSet acc fm.1 v
        | none => acc) acc) k = dictGet acc k := by
  intro ms
  induction ms with
  | nil => intro acc k _; rfl
  | cons m ms ih =>
    intro acc k h
    simp only [List.foldl_cons]
    rw [ih _ k (fun fm hfm => h fm (List.mem_cons_of_mem m hfm))]
    cases hr : resolve_field m.2 raw with
    | none => rfl
    | some v =>
      exact dictGet_set_ne _ _ _ _ (Ne.symm (h m (List.mem_cons_self m ms)))

theorem apply_industry_preserve (n : PyDict) (k : String)
    (h1 : k ≠ "industry") (h2 : k ≠ "industry_raw") :
    dictGet (apply_industry_normalization n) k = dictGet n k := by
  unfold apply_industry_normalization
  repeat' split
  all_goals (first
    | rfl
    | rw [dictGet_set_ne _ _ _ _ h1, dictGet_set_ne _ _ _ _ h2])

theorem apply_hunter_block_error (raw : RawData) (n : PyDict)
    (herr : flagTruthy (rawGet raw "hunter") "_error" = true) :
    apply_hunter_block raw n = n := by
  unfold apply_hunter_block
  rw [if_neg]
  simp [herr]

theorem apply_hunter_block_sets_verified (raw : RawData) (n : PyDict)
    (ht : dictTruthy (rawGet raw "hunter") = true)
    (he : flagTruthy (rawGet raw "hunter") "_error" = false) :
    (dictGet (apply_hunter_block raw n) "email_verified").isSome = true := by
  unfold apply_hunter_block
  rw [if_pos ⟨ht, by simp [he]⟩]
  rw [dictGet_set_ne _ _ _ _
      (by decide : ("email_verified" : String) ≠ "email_deliverable"),
    dictGet_set_ne _ _ _ _
      (by decide : ("email_verified" : String) ≠ "email_score"),
    dictGet_set_self]
  rfl

theorem apply_gnews_preserve (raw : RawData) (n : PyDict) (k : String)
    (h1 : k ≠ "company_context") (h2 : k ≠ "recent_news")
    (h3 : k ≠ "news_themes") (h4 : k ≠ "news_sentiment")
    (h5 : k ≠ "news_by_category") :
    dictGet (apply_gnews_block raw n) k = dictGet n k := by
  unfold apply_gnews_block
  split
  · rw [dictGet_set_ne _ _ _ _ h5, dictGet_set_ne _ _ _ _ h4,
      dictGet_set_ne _ _ _ _ h3, dictGet_set_ne _ _ _ _ h2,
      dictGet_set_ne _ _ _ _ h1]
  · rfl

theorem apply_gnews_isSome (raw : RawData) (n : PyDict) (k : String)
    (h : (dictGet n k).isSome = true) :
    (dictGet (apply_gnews_block raw n) k).isSome = true := by
  unfold apply_gnews_block
  split
  · repeat' apply dictGet_set_isSome
    exact h
  · exact h

theorem apply_pdl_preserve (raw : RawData) (n : PyDict) (k : String)
    (h1 : k ≠ "company_summary") (h2 : k ≠ "company_headline")
    (h3 : k ≠ "company_type") (h4 : k ≠ "company_tags")
    (h5 : k ≠ "total_funding") (h6 : k ≠ "latest_funding_stage")
    (h7 : k ≠ "employee_growth_rate") (h8 : k ≠ "inferred_revenue")
    (h9 : k ≠ "company_linkedin") (h10 : k ≠ "employee_count") :
    dictGet (apply_pdl_company_block raw n) k = dictGet n k := by
  simp only [apply_pdl_company_block]
  repeat' split
  all_goals (first
    | rfl
    | rw [dictGet_set_ne _ _ _ _ h10, dictGet_set_ne _ _ _ _ h9,
        dictGet_set_ne _ _ _ _ h8, dictGet_set_ne _ _ _ _ h7,
        dictGet_set_ne _ _ _ _ h6, dictGet_set_ne _ _ _ _ h5,
        dictGet_set_ne _ _ _ _ h4, dictGet_set_ne _ _ _ _ h3,
        dictGet_set_ne _ _ _ _ h2, dictGet_set_ne _ _ _ _ h1]
    | rw [dictGet_set_ne _ _ _ _ h9, dictGet_set_ne _ _ _ _ h8,
        dictGet_set_ne _ _ _ _ h7, dictGet_set_ne _ _ _ _ h6,
        dictGet_set_ne _ _ _ _ h5, dictGet_set_ne _ _ _ _ h4,
        dictGet_set_ne _ _ _ _ h3, dictGet_set_ne _ _ _ _ h2,
        dictGet_set_ne _ _ _ _ h1])

theorem apply_pdl_isSome (raw : RawData) (n : PyDict) (k : String)
    (h : (dictGet n k).isSome = true) :
    (dictGet (apply_pdl_company_block raw n) k).isSome = true := by
  simp only [apply_pdl_company_block]
  repeat' split
  all_goals (first
    | exact h
    | (repeat' apply dictGet_set_isSome
       exact h))

theorem employee_backfill_step_preserve (n : PyDict) (key k : String)
    (h1 : k ≠ "employee_count") (h2 : k ≠ "employee_count_estimated") :
    dictGet (employee_backfill_step n key) k = dictGet n k := by
  simp only [employee_backfill_step]
  repeat' split
  all_goals (first
    | rfl
    | rw [dictGet_set_ne _ _ _ _ h2, dictGet_set_ne _ _ _ _ h1])

theorem employee_backfill_step_isSome (n : PyDict) (key k : String)
    (h : (dictGet n k).isSome = true) :
    (dictGet (employee_backfill_step n key) k).isSome = true := by
  simp only [employee_backfill_step]
  repeat' split
  all_goals (first
    | exact h
    | (repeat' apply dictGet_set_isSome
       exact h))

theorem apply_employee_backfill_preserve (n : PyDict) (k : String)
    (h1 : k ≠ "employee_count") (h2 : k ≠ "employee_count_estimated") :
    dictGet (apply_employee_backfill n) k = dictGet n k := by
  unfold apply_employee_backfill
  repeat' split
  all_goals (first
    | rfl
    | rw [employee_backfill_step_preserve _ _ _ h1 h2,
        employee_backfill_step_preserve _ _ _ h1 h2]
    | rw [employee_backfill_step_preserve _ _ _ h1 h2])

theorem apply_employee_backfill_isSome (n : PyDict) (k : String)
    (h : (dictGet n k).isSome = true) :
    (dictGet (apply_employee_backfill n) k).isSome = true := by
  unfold apply_employee_backfill
  repeat' split
  all_goals (first
    | exact h
    | exact employee_backfill_step_isSome _ _ _
        (employee_backfill_step_isSome _ _ _ h)
    | exact employee_backfill_step_isSome _ _ _ h)

/-- C2 (amended): every field resolved by the field-mapping merge
(`_resolve_field`) originates from a payload that is truthy, non-error and
non-mock; but the fields copied directly from the hunter payload are
guarded only by the `_error` flag — they are absent when the payload is
error-tagged and present whenever it is truthy and non-error, even when it
is mock-tagged. -/
theorem C2_mock_exclusion_amended :
    (∀ (sources : List (String × String)) (raw : RawData) (v : Val),
      resolve_field sources raw = some v →
      ∃ sf ∈ sources,
        dictTruthy (rawGet raw sf.1) = true
        ∧ flagTruthy (rawGet raw sf.1) "_error" = false
        ∧ flagTruthy (rawGet raw sf.1) "_mock" = false
        ∧ dictGet (rawGet raw sf.1) sf.2 = some v
        ∧ v.isNone = false ∧ v.isEmptyString = false)
    ∧ (∀ (email domain : String) (raw : RawData),
      flagTruthy (rawGet raw "hunter") "_error" = true →
      dictGet (resolve_profile email domain raw) "email_score" = none)
    ∧ (∀ (email domain : String) (raw : RawData),
      dictTruthy (rawGet raw "hunter") = true →
      flagTruthy (rawGet raw "hunter") "_error" = false →
      (dictGet (resolve_profile email domain raw) "email_verified").isSome
        = true) := by
  refine ⟨?_, ?_, ?_⟩
  · intro sources raw v hrf
    rw [resolve_field_eq_first_max] at hrf
    obtain ⟨c, hfind, hv⟩ := Option.map_eq_some'.mp hrf
    have hmem : c ∈ resolve_candidates sources raw :=
      List.mem_of_find?_eq_some hfind
    obtain ⟨sf, hsf, hrest⟩ := resolve_candidates_origin sources raw c hmem
    subst hv
    exact ⟨sf, hsf, hrest⟩
  · intro email domain raw herr
    unfold resolve_profile
    rw [apply_employee_backfill_preserve _ _ (by decide) (by decide),
      apply_pdl_preserve raw _ _ (by decide) (by decide) (by decide) (by decide)
        (by decide) (by decide) (by decide) (by decide) (by decide) (by decide),
      apply_gnews_preserve raw _ _ (by decide) (by decide) (by decide)
        (by decide) (by decide),
      apply_hunter_block_error raw _ herr,
      apply_industry_preserve _ _ (by decide) (by decide)]
    unfold apply_field_mappings
    rw [fold_mappings_get_notin raw field_mappings [] "email_score" (by decide)]
    rfl
  · intro email domain raw ht he
    unfold resolve_profile
    apply apply_employee_backfill_isSome
    apply apply_pdl_isSome
    apply apply_gnews_isSome
    exact apply_hunter_block_sets_verified raw _ ht he

/-- C2 (counterexample): the hunter fields are copied into the profile even
though the payload is mock-tagged — the direct copies check only the
`_error` flag, so a profile field can originate from a mock payload. -/
theorem C2_counterexample :
    flagTruthy (rawGet rawC2mock "hunter") "_mock" = true
    ∧ dictGet (resolve_profile "jane@acme.com" "acme.com" rawC2mock)
        "email_score" = some (Val.int 97)
    ∧ dictGet (resolve_profile "jane@acme.com" "acme.com" rawC2mock)
        "email_verified" = some (Val.bool true) :=
  ⟨rfl, rfl, rfl⟩

/-- C2 witness: the amended statement applied at concrete raw data — the
error-tagged hunter payload contributes no email score, and a clean pdl
value resolved by the merge originates from a non-error, non-mock
payload. -/
theorem C2_mock_exclusion_witness :
    (flagTruthy (rawGet rawC2err "hunter") "_error" = true
      ∧ dictGet (resolve_profile "jane@acme.com" "acme.com" rawC2err)
          "email_score" = none)
    ∧ (resolve_field [("pdl", "skills")] rawC2skills = some (Val.str "ml")
      ∧ ∃ sf ∈ [(("pdl" : String), ("skills" : String))],
          dictTruthy (rawGet rawC2skills sf.1) = true
          ∧ flagTruthy (rawGet rawC2skills sf.1) "_error" = false
          ∧ flagTruthy (rawGet rawC2skills sf.1) "_mock" = false
          ∧ dictGet (rawGet rawC2skills sf.1) sf.2 = some (Val.str "ml")
          ∧ (Val.str "ml").isNone = false
          ∧ (Val.str "ml").isEmptyString = false) :=
  ⟨⟨rfl, C2_mock_exclusion_amended.2.1 "jane@acme.com" "acme.com" rawC2err rfl⟩,
   ⟨rfl, C2_mock_exclusion_amended.1 [("pdl", "skills")] rawC2skills
     (Val.str "ml") rfl⟩⟩

end Spec2Proof
